import Mathlib

/-
Verification of the po_validator sub-package of pdf_uploader.

The Python source is shallowly embedded: pure computations become Lean
functions, the pdfplumber / Gemini / PyMuPDF I/O boundaries become
explicit parameters (the values those library calls produced), and
Python floats are idealised as rationals.  Regular expressions from the
source are embedded via a small backtracking engine whose alternation,
greedy-quantifier and leftmost-search priorities mirror the `re` module.
-/

set_option maxRecDepth 4000

/- ---------------------------------------------------------------------
   Generic Python-flavoured helpers
--------------------------------------------------------------------- -/

/-- Python `a or b` for strings: `b` when `a` is empty (falsy), else `a`. -/
def pyOr (a b : String) : String := if a = "" then b else a

/-- Truthiness of an optional string (Python `if s:`): present and non-empty. -/
def truthyO (s : Option String) : Bool :=
  match s with
  | none => false
  | some t => t ≠ ""

/-- Contiguous-sublist test on character lists. -/
def listInfix (needle : List Char) : List Char → Bool
  | [] => needle.isEmpty
  | c :: rest => needle.isPrefixOf (c :: rest) || listInfix needle rest

/-- Python substring test `needle in hay`. -/
def substr (needle hay : String) : Bool :=
  listInfix needle.toList hay.toList

/-- Python `str.lower()`: character-wise lowering (the handled inputs are
ASCII, where this coincides with Python).  Defined on the character list so
it evaluates inside the kernel. -/
def strLower (s : String) : String := String.mk (s.data.map Char.toLower)

/-- Python `str.upper()`. -/
def strUpper (s : String) : String := String.mk (s.data.map Char.toUpper)

/-- Python `str.strip()`: drop whitespace from both ends. -/
def strTrim (s : String) : String :=
  String.mk (((s.data.dropWhile Char.isWhitespace).reverse.dropWhile
    Char.isWhitespace).reverse)

/-- Replace non-overlapping occurrences of a non-empty pattern, left to
right (Python `str.replace`); the first argument is fuel. -/
def replaceAllAux (pat rep : List Char) : ℕ → List Char → List Char
  | 0, l => l
  | _+1, [] => []
  | f+1, c :: rest =>
    if pat ≠ [] ∧ pat.isPrefixOf (c :: rest) then
      rep ++ replaceAllAux pat rep f ((c :: rest).drop pat.length)
    else c :: replaceAllAux pat rep f rest

def strReplace (s pat rep : String) : String :=
  String.mk (replaceAllAux pat.data rep.data (s.data.length + 1) s.data)

/-- Python `str.split(sep)` for a non-empty separator; fuel first. -/
def splitOnAuxL (sep : List Char) : ℕ → List Char → List (List Char)
  | 0, l => [l]
  | _+1, [] => [[]]
  | f+1, c :: rest =>
    if sep ≠ [] ∧ sep.isPrefixOf (c :: rest) then
      [] :: splitOnAuxL sep f ((c :: rest).drop sep.length)
    else
      match splitOnAuxL sep f rest with
      | [] => [[c]]
      | h :: t => (c :: h) :: t

def strSplitOn (s sep : String) : List String :=
  (splitOnAuxL sep.data (s.data.length + 1) s.data).map String.mk

/-- Round-half-to-even on rationals, the idealisation of Python `round` on a
real value (bankers rounding at ties). -/
def pyRoundHalfEven (q : ℚ) : ℤ :=
  let f := ⌊q⌋
  let r := q - (f : ℚ)
  if r < 1/2 then f
  else if 1/2 < r then f + 1
  else if f % 2 = 0 then f else f + 1

/-- Python `round(q, n)`: round to `n` decimal places, half to even. -/
def pyRound (q : ℚ) (n : ℕ) : ℚ :=
  (pyRoundHalfEven (q * (10 : ℚ) ^ n) : ℚ) / (10 : ℚ) ^ n

/-- Group a reversed digit list in threes, inserting commas (helper for the
Python `{:,}` format). The first argument is fuel (at most the list length). -/
def group3Rev : ℕ → List Char → List Char
  | _, [] => []
  | 0, l => l
  | f+1, l => if l.length ≤ 3 then l else l.take 3 ++ ',' :: group3Rev f (l.drop 3)

/-- Format a natural number with thousands separators, as Python `{:,}`. -/
def fmtNatCommas (n : ℕ) : String :=
  let s := (toString n).toList.reverse
  String.mk (group3Rev s.length s).reverse

/-- Python `f"{q:,.2f}"`: two decimal places, thousands separators. -/
def fmt2f (q : ℚ) : String :=
  let n := pyRoundHalfEven (q * 100)
  let neg := n < 0 ∨ (n = 0 ∧ q < 0)
  let m := n.natAbs
  let ip := m / 100
  let cents := m % 100
  let centsStr := (if cents < 10 then "0" else "") ++ toString cents
  (if neg then "-" else "") ++ fmtNatCommas ip ++ "." ++ centsStr

/-- Python `enumerate` starting at a given index. -/
def pyEnumerateFrom {α : Type} (i : ℕ) : List α → List (ℕ × α)
  | [] => []
  | a :: as => (i, a) :: pyEnumerateFrom (i+1) as

/-- Python `enumerate(l)`. -/
def pyEnumerate {α : Type} (l : List α) : List (ℕ × α) := pyEnumerateFrom 0 l

/- ---------------------------------------------------------------------
   A small backtracking regex engine mirroring Python `re` semantics:
   alternation tries the left branch first, `*`/`?`/counted repetition are
   greedy, `search` takes the leftmost matching position, and at most one
   capture group is supported (all patterns in the source use at most one).
--------------------------------------------------------------------- -/

/-- Regex syntax: predicates over single characters, sequencing, prioritised
alternation, greedy star, one capture group, word boundary, and the
start/end anchors of non-MULTILINE Python `re`. -/
inductive RE : Type
  | eps : RE
  | pred : (Char → Bool) → RE
  | seq : RE → RE → RE
  | alt : RE → RE → RE
  | star : RE → RE
  | group : RE → RE
  | wb : RE
  | bos : RE
  | eos : RE

/-- Word character for `\b` (`[A-Za-z0-9_]`; the inputs handled are ASCII). -/
def isWordChar (c : Char) : Bool := c.isAlphanum || c = '_'

def isWordO (c : Option Char) : Bool :=
  match c with
  | none => false
  | some c => isWordChar c

/-- Run a regex at the current position.  `prev` is the character just before
the position (for `\b` and `^`), `cs` the rest of the input.  Returns every
possible (consumed characters, capture) pair, in the priority order that the
backtracking engine of Python re would try them.  In every pattern of the source, `star`
is applied only to single-character classes, so the greedy star is realised
directly on the maximal predicate run (longest first); star of any other
expression is unused and matches only the empty string. -/
def reRun : RE → Option Char → List Char → List (List Char × Option (List Char))
  | .eps, _, _ => [([], none)]
  | .pred p, _, cs =>
    match cs with
    | [] => []
    | c :: _ => if p c then [([c], none)] else []
  | .seq a b, prev, cs =>
    (reRun a prev cs).flatMap (fun o1 =>
      (reRun b (o1.1.getLast?.orElse (fun _ => prev)) (cs.drop o1.1.length)).map
        (fun o2 => (o1.1 ++ o2.1, o1.2.orElse (fun _ => o2.2))))
  | .alt a b, prev, cs => reRun a prev cs ++ reRun b prev cs
  | .star (.pred p), _, cs =>
    let run := cs.takeWhile p
    (List.range (run.length + 1)).map (fun k => (run.take (run.length - k), none))
  | .star _, _, _ => [([], none)]
  | .group a, prev, cs =>
    (reRun a prev cs).map (fun o => (o.1, some o.1))
  | .wb, prev, cs =>
    if isWordO prev ≠ isWordO cs.head? then [([], none)] else []
  | .bos, prev, _ => if prev.isNone then [([], none)] else []
  | .eos, _, cs => if cs = [] ∨ cs = ['\n'] then [([], none)] else []

/-- MatchAt: first (highest-priority) match of `r` at the current position. -/
def reMatchAt (r : RE) (prev : Option Char) (cs : List Char) :
    Option (List Char × Option (List Char)) :=
  (reRun r prev cs).head?

/-- Python `pattern.search`: try each start position from the left. -/
def reSearchAux (r : RE) : Option Char → List Char → Option (List Char × Option (List Char))
  | prev, cs =>
    match reMatchAt r prev cs with
    | some res => some res
    | none =>
      match cs with
      | [] => none
      | c :: rest => reSearchAux r (some c) rest

def reSearch (r : RE) (s : String) : Option (List Char × Option (List Char)) :=
  reSearchAux r none s.toList

/-- Boolean form of `pattern.search`. -/
def reTest (r : RE) (s : String) : Bool := (reSearch r s).isSome

/-- Python `pattern.match`: anchored at position 0 (not necessarily to the end). -/
def reMatchStart (r : RE) (s : String) : Bool :=
  (reMatchAt r none s.toList).isSome

/-- The string a `findall` element denotes: the capture if the pattern has a
group, else the whole match. -/
def capVal (o : List Char × Option (List Char)) : String :=
  String.mk (o.2.getD o.1)

/-- Python `pattern.findall`: non-overlapping matches left to right, resuming
after each match (advancing one character past an empty match). -/
def reFindAllAux (r : RE) : ℕ → Option Char → List Char → List String
  | 0, _, _ => []
  | fuel+1, prev, cs =>
    match reMatchAt r prev cs with
    | some o =>
      if o.1.isEmpty then
        match cs with
        | [] => [capVal o]
        | c :: rest => capVal o :: reFindAllAux r fuel (some c) rest
      else
        capVal o :: reFindAllAux r fuel (o.1.getLast?.orElse (fun _ => prev)) (cs.drop o.1.length)
    | none =>
      match cs with
      | [] => []
      | c :: rest => reFindAllAux r fuel (some c) rest

def reFindAll (r : RE) (s : String) : List String :=
  reFindAllAux r (s.toList.length + 1) none s.toList

/-- Python `pattern.sub(rep, s)` for a constant replacement string: replace
every non-overlapping match left to right.  (Every pattern substituted in
the source matches at least one character, so the empty-match case, which
here keeps the character, is never exercised.) -/
def reSubAux (r : RE) (rep : List Char) : ℕ → Option Char → List Char → List Char
  | 0, _, cs => cs
  | fuel+1, prev, cs =>
    match reMatchAt r prev cs with
    | some o =>
      if o.1.isEmpty then
        match cs with
        | [] => []
        | c :: rest => c :: reSubAux r rep fuel (some c) rest
      else
        rep ++ reSubAux r rep fuel (o.1.getLast?.orElse (fun _ => prev)) (cs.drop o.1.length)
    | none =>
      match cs with
      | [] => []
      | c :: rest => c :: reSubAux r rep fuel (some c) rest

def reSub (r : RE) (rep : String) (s : String) : String :=
  String.mk (reSubAux r rep.toList (s.toList.length + 1) none s.toList)

/- Regex construction helpers. -/

/-- Case-insensitive literal character (`c` given in lowercase). -/
def reCharCI (c : Char) : RE := .pred (fun x => x.toLower = c)

/-- Case-sensitive literal character. -/
def reChar (c : Char) : RE := .pred (fun x => x = c)

/-- Case-insensitive literal string. -/
def reStr (s : String) : RE := (s.toList.map reCharCI).foldr .seq .eps

/-- Greedy `?`. -/
def reOpt (r : RE) : RE := .alt r .eps

/-- Greedy `+` of a single-character predicate is `pred` then its star. -/
def rePlus (r : RE) : RE := .seq r (.star r)

/-- Greedy counted repetition `r{0,n}` of a single-character predicate. -/
def reUpTo : ℕ → RE → RE
  | 0, _ => .eps
  | n+1, r => .alt (.seq r (reUpTo n r)) .eps

def reWs : RE := .pred Char.isWhitespace
def reDigit : RE := .pred Char.isDigit

/- ---------------------------------------------------------------------
   The concrete regular expressions of app/po_validator/extractor.py,
   transcribed into RE terms (all patterns carry the (?i) flag unless
   the characters are case-neutral; reStr / reCharCI are case-insensitive).
--------------------------------------------------------------------- -/

/-- One to three digits, greedy (`\d{1,3}`). -/
def rep13 : RE := .seq reDigit (reOpt (.seq reDigit (reOpt reDigit)))

/-- Pattern `^\d{1,3}\.\d{1,3}\.\d{1,3}\.\d{1,3}$` (IP-address shape). -/
def IP_ADDRESS : RE :=
  .seq .bos (.seq rep13 (.seq (reChar '.') (.seq rep13 (.seq (reChar '.')
    (.seq rep13 (.seq (reChar '.') (.seq rep13 .eos)))))))

/-- Boolean form of `_IP_ADDRESS.match(s)`. -/
def isIpAddress (s : String) : Bool := reMatchStart IP_ADDRESS s

/-- First alternative of `_SN_IN_TEXT`: `s/?n[:#]?\s*`. -/
def snPrefix1 : RE :=
  .seq (reCharCI 's') (.seq (reOpt (reChar '/')) (.seq (reCharCI 'n')
    (.seq (reOpt (.pred (fun c => c = ':' || c = '#'))) (.star reWs))))

/-- Second alternative of `_SN_IN_TEXT`: `serial\s*(?:#|no\.?)?:?\s*`. -/
def snPrefix2 : RE :=
  .seq (reStr "serial") (.seq (.star reWs)
    (.seq (reOpt (.alt (reChar '#') (.seq (reCharCI 'n') (.seq (reCharCI 'o') (reOpt (reChar '.'))))))
      (.seq (reOpt (reChar ':')) (.star reWs))))

/-- Class `(?i)[A-Z0-9]`. -/
def snBodyChar : RE := .pred (fun c => c.isAlphanum)

/-- Class `(?i)[A-Z0-9_.\-]`. -/
def snTailChar : RE := .pred (fun c => c.isAlphanum || c = '_' || c = '.' || c = '-')

/-- Pattern `_SN_IN_TEXT`:
`(?i)(?:s/?n[:#]?\s*|serial\s*(?:#|no\.?)?:?\s*)([A-Z0-9][A-Z0-9_.\-]{2,30})`. -/
def SN_IN_TEXT : RE :=
  .seq (.alt snPrefix1 snPrefix2)
    (.group (.seq snBodyChar (.seq snTailChar (.seq snTailChar (reUpTo 28 snTailChar)))))

/-- Pattern `_SN_HEADER_PATTERNS`: `(?i)\b(serial\s*(?:#|number|no\.?)?|s/?n)\b`. -/
def SN_HEADER_PATTERNS : RE :=
  .seq .wb (.seq (.group (.alt
      (.seq (reStr "serial") (.seq (.star reWs)
        (reOpt (.alt (reChar '#') (.alt (reStr "number") (.seq (reStr "no") (reOpt (reChar '.'))))))))
      (.seq (reCharCI 's') (.seq (reOpt (reChar '/')) (reCharCI 'n'))))) .wb)

/-- Alternative `ext(?:ended)?\.?\s*(?:price|amt)?` of the price header pattern. -/
def extAlt : RE :=
  .seq (reStr "ext") (.seq (reOpt (reStr "ended")) (.seq (reOpt (reChar '.'))
    (.seq (.star reWs) (reOpt (.alt (reStr "price") (reStr "amt"))))))

/-- Pattern `_PRICE_HEADER_PATTERNS`:
`(?i)\b(unit\s*price|price|rate|amount|ext(?:ended)?\.?\s*(?:price|amt)?|total|each)\b`. -/
def PRICE_HEADER_PATTERNS : RE :=
  .seq .wb (.seq (.group (.alt (.seq (reStr "unit") (.seq (.star reWs) (reStr "price")))
    (.alt (reStr "price") (.alt (reStr "rate") (.alt (reStr "amount")
      (.alt extAlt (.alt (reStr "total") (reStr "each")))))))) .wb)

/-- Pattern `_QTY_HEADER_PATTERNS`: `(?i)\b(qty|quantity|qty\.?)\b`. -/
def QTY_HEADER_PATTERNS : RE :=
  .seq .wb (.seq (.group (.alt (reStr "qty")
    (.alt (reStr "quantity") (.seq (reStr "qty") (reOpt (reChar '.')))))) .wb)

/-- Sub-pattern `desc(?:ription)?`. -/
def descBase : RE := .seq (reStr "desc") (reOpt (reStr "ription"))

/-- The fourth pattern of `_find_header_row`:
`(?i)\b(desc(?:ription)?|product|service|detail)\b`. -/
def HDR_DESC_PATTERN : RE :=
  .seq .wb (.seq (.group (.alt descBase (.alt (reStr "product")
    (.alt (reStr "service") (reStr "detail"))))) .wb)

/-- Priority-1 description header of `_find_desc_column_index`:
`(?i)\b(desc(?:ription)?|product)\b`. -/
def DESC_P1 : RE := .seq .wb (.seq (.group (.alt descBase (reStr "product"))) .wb)

/-- Priority-2 description header: `(?i)\b(service|detail)\b`. -/
def DESC_P2 : RE := .seq .wb (.seq (.group (.alt (reStr "service") (reStr "detail"))) .wb)

/-- Priority-3 description header: `(?i)\bitem\b`. -/
def ITEM_PATTERN : RE := .seq .wb (.seq (reStr "item") .wb)

/-- Exclusion for priority 3: `(?i)(line|#|no\.?|number)`. -/
def ITEM_EXCLUDE : RE := .group (.alt (reStr "line") (.alt (reChar '#')
  (.alt (.seq (reStr "no") (reOpt (reChar '.'))) (reStr "number"))))

/-- Pattern `_SKIP_ROW_PAT`:
`(?i)(sub\s*total|grand\s*total|\btotal\b|full\s*tax|withheld|route\s*to)`. -/
def SKIP_ROW_PAT : RE := .group (.alt
  (.seq (reStr "sub") (.seq (.star reWs) (reStr "total")))
  (.alt (.seq (reStr "grand") (.seq (.star reWs) (reStr "total")))
  (.alt (.seq .wb (.seq (reStr "total") .wb))
  (.alt (.seq (reStr "full") (.seq (.star reWs) (reStr "tax")))
  (.alt (reStr "withheld")
    (.seq (reStr "route") (.seq (.star reWs) (reStr "to"))))))))

/-- Pattern `_SKIP_LINE_PAT`:
`(?i)(sub\s*tota[il]|grand\s*total|order\s*total|\btotal\s*:|^total$|^tax\b|^shipping\b|^freight\b|comments|approved\s+by)`. -/
def SKIP_LINE_PAT : RE := .group (.alt
  (.seq (reStr "sub") (.seq (.star reWs) (.seq (reStr "tota")
    (.pred (fun c => c.toLower = 'i' || c.toLower = 'l')))))
  (.alt (.seq (reStr "grand") (.seq (.star reWs) (reStr "total")))
  (.alt (.seq (reStr "order") (.seq (.star reWs) (reStr "total")))
  (.alt (.seq .wb (.seq (reStr "total") (.seq (.star reWs) (reChar ':'))))
  (.alt (.seq .bos (.seq (reStr "total") .eos))
  (.alt (.seq .bos (.seq (reStr "tax") .wb))
  (.alt (.seq .bos (.seq (reStr "shipping") .wb))
  (.alt (.seq .bos (.seq (reStr "freight") .wb))
  (.alt (reStr "comments")
    (.seq (reStr "approved") (.seq (rePlus reWs) (reStr "by"))))))))))))

/-- The price pattern of `_parse_text_lines`: `\$(\d[\d,.]+)`. -/
def priceLineChar : RE := .pred (fun c => c.isDigit || c = ',' || c = '.')

def PRICE_PAT : RE := .seq (reChar '$') (.group (.seq reDigit (rePlus priceLineChar)))

/-- Class `[\w\-]`. -/
def wordDash : RE := .pred (fun c => isWordChar c || c = '-')

/-- Group `([A-Z0-9][\w\-]{2,30})` (the capture of most PO-number patterns). -/
def poGroupA : RE := .group (.seq snBodyChar (.seq wordDash (.seq wordDash (reUpTo 28 wordDash))))

/-- Pattern `(?i)purchase\s+order\s*(?:#|no\.?:?)\s*([A-Z0-9][\w\-]{2,30})`. -/
def PO_PAT1 : RE :=
  .seq (reStr "purchase") (.seq (rePlus reWs) (.seq (reStr "order") (.seq (.star reWs)
    (.seq (.alt (reChar '#') (.seq (reStr "no") (.seq (reOpt (reChar '.')) (reOpt (reChar ':')))))
      (.seq (.star reWs) poGroupA)))))

/-- Pattern `(?i)purchase\s+order[ \t]+(\d[\w\-]{2,30})`. -/
def PO_PAT2 : RE :=
  .seq (reStr "purchase") (.seq (rePlus reWs) (.seq (reStr "order")
    (.seq (rePlus (.pred (fun c => c = ' ' || c = '\t')))
      (.group (.seq reDigit (.seq wordDash (.seq wordDash (reUpTo 28 wordDash))))))))

/-- Pattern `(?i)\bPO\s+Number\s*:?\s*([A-Z0-9][\w\-]{2,30})`. -/
def PO_PAT3 : RE :=
  .seq .wb (.seq (reStr "po") (.seq (rePlus reWs) (.seq (reStr "number")
    (.seq (.star reWs) (.seq (reOpt (reChar ':')) (.seq (.star reWs) poGroupA))))))

/-- Pattern `(?i)\bPO\s*(?:#|No\.?)\s*:?\s*([A-Z0-9][\w\-]{2,30})`. -/
def PO_PAT4 : RE :=
  .seq .wb (.seq (reStr "po") (.seq (.star reWs)
    (.seq (.alt (reChar '#') (.seq (reStr "no") (reOpt (reChar '.'))))
      (.seq (.star reWs) (.seq (reOpt (reChar ':')) (.seq (.star reWs) poGroupA))))))

/-- Pattern `(?i)customer\s+PO[#:]?\s+([A-Z0-9][\w\-]{2,30})`. -/
def PO_PAT5 : RE :=
  .seq (reStr "customer") (.seq (rePlus reWs) (.seq (reStr "po")
    (.seq (reOpt (.pred (fun c => c = '#' || c = ':'))) (.seq (rePlus reWs) poGroupA))))

/-- Class `[\d\-]`. -/
def digitDash : RE := .pred (fun c => c.isDigit || c = '-')

/-- Pattern `(?i)invoice\s*#:?\s*(\d[\d\-]{4,30})`. -/
def PO_PAT6 : RE :=
  .seq (reStr "invoice") (.seq (.star reWs) (.seq (reChar '#') (.seq (reOpt (reChar ':'))
    (.seq (.star reWs) (.group (.seq reDigit (.seq digitDash (.seq digitDash
      (.seq digitDash (.seq digitDash (reUpTo 26 digitDash)))))))))))

/- Patterns only used through `re.sub`. -/

/-- Pattern `\s*\n\s*` (multiline cell cleanup in `_parse_table`). -/
def WS_NL_WS : RE := .seq (.star reWs) (.seq (reChar '\n') (.star reWs))

/-- Pattern `\s{2,}` (description cleanup in `_parse_text_lines`). -/
def WS2PLUS : RE := .seq reWs (rePlus reWs)

/-- Pattern `\s+` (header normalisation in `_find_desc_column_index`). -/
def WS_PLUS : RE := rePlus reWs

/-- Class `[^\d.\-]` (characters `_clean_price` strips). -/
def NON_PRICE_CHAR : RE := .pred (fun c => !(c.isDigit || c = '.' || c = '-'))

/-- Class `[^\d]` (characters the quantity parser strips). -/
def NON_DIGIT : RE := .pred (fun c => !c.isDigit)

/-- Pattern `\s*\([^)]*\)` (parenthetical removal in validate phase 2). -/
def PAREN_PAT : RE :=
  .seq (.star reWs) (.seq (reChar '(') (.seq (.star (.pred (fun c => c ≠ ')'))) (reChar ')')))

/- ---------------------------------------------------------------------
   Data model (app/po_validator/models.py).  Prices are rationals, the
   pydantic `timestamp` field (wall-clock time) is omitted, and the
   Literal status fields are plain strings.
--------------------------------------------------------------------- -/

/-- A bounding box `(x0, top, x1, bottom)` in PDF points. -/
abbrev Bbox := ℚ × ℚ × ℚ × ℚ

/-- models.POLineItem: a single line item extracted from a purchase order PDF. -/
structure POLineItem where
  serial_number : Option String
  description : String
  unit_price : Option ℚ
  quantity : Option ℤ
  extended_price : Option ℚ
  page_number : Option ℕ
  bbox : Option Bbox
deriving DecidableEq, Repr, Inhabited

/-- models.POExtraction: structured data extracted from a PO PDF. -/
structure POExtraction where
  po_number : String
  line_items : List POLineItem
  confidence : ℚ
  extraction_method : String
  raw_text : String
deriving DecidableEq, Repr, Inhabited

/-- models.PriceMismatch. -/
structure PriceMismatch where
  serial_number : String
  po_price : ℚ
  expected_price : ℚ
  difference : ℚ
  description : String
  work_item_id : Option ℤ
deriving DecidableEq, Repr, Inhabited

/-- models.MissingWorkItem. -/
structure MissingWorkItem where
  work_item_id : ℤ
  serial_number : String
  asset_name : String
  expected_price : Option ℚ
deriving DecidableEq, Repr, Inhabited

/-- models.LineAnnotation: instruction to draw on the PO PDF. -/
structure LineAnnotation where
  status : String
  comment : String
  page_number : Option ℕ
  bbox : Option Bbox
  search_text : String
deriving DecidableEq, Repr, Inhabited

/-- models.ValidationResult (without the wall-clock `timestamp` field). -/
structure ValidationResult where
  document_name : String
  po_number : String
  service_order_id : Option ℤ
  status : String
  mismatches : List PriceMismatch
  missing_items : List MissingWorkItem
  annotations : List LineAnnotation
  po_line_items_total : ℕ
  line_items_checked : ℕ
  line_items_matched : ℕ
  work_items_total : ℕ
  extraction_method : String
  confidence : ℚ
  notes : String
deriving DecidableEq, Repr, Inhabited

/-- A Qualer work item as accessed by validate (SDK model attributes; `none`
stands for a missing attribute or a Python None value). -/
structure WorkItem where
  work_item_id : Option ℤ
  serial_number : Option String
  asset_name : Option String
  asset_description : Option String
  service_charge : Option ℚ
  service_total : Option ℚ
deriving DecidableEq, Repr, Inhabited

/- ---------------------------------------------------------------------
   pdfplumber-boundary data: what the library calls inside
   extractor._extract_*_from_pages returned for each page.
--------------------------------------------------------------------- -/

/-- One pdfplumber page: the result of `page.extract_text()` and, for each
table of `page.find_tables()`, its bbox, cells and `extract()` data. -/
structure RawTable where
  bbox : Bbox
  cells : List Bbox
  data : List (List (Option String))
deriving DecidableEq, Repr, Inhabited

structure PdfPage where
  text : Option String
  tables : List RawTable
deriving DecidableEq, Repr, Inhabited

/-- extractor._PageTable. -/
structure PageTable where
  page_index : ℕ
  table_bbox : Bbox
  cells : List Bbox
  data : List (List (Option String))
deriving DecidableEq, Repr, Inhabited

/-- extractor._PageText. -/
structure PageText where
  page_index : ℕ
  text : String
deriving DecidableEq, Repr, Inhabited

/- ---------------------------------------------------------------------
   Tier 1 extraction (extractor.py)
--------------------------------------------------------------------- -/

/-- extractor.CONFIDENCE_THRESHOLD. -/
def CONFIDENCE_THRESHOLD : ℚ := 7/10

/-- Digits of a numeral string as a natural number. -/
def digitsToNat (cs : List Char) : ℕ :=
  cs.foldl (fun n c => n * 10 + (c.toNat - 48)) 0

/-- Python `float()` restricted to the alphabet `[0-9.\-]` that
`_clean_price` can produce: optional leading minus, digits with at most one
decimal point and at least one digit; anything else raises (returns none). -/
def parsePyFloat (s : String) : Option ℚ :=
  let cs0 := s.toList
  let neg := cs0.head? = some '-'
  let cs := if neg then cs0.tail else cs0
  if cs.any (fun c => c = '-') then none
  else
    let intPart := cs.takeWhile Char.isDigit
    let rest := cs.drop intPart.length
    let sign : ℚ := if neg then -1 else 1
    match rest with
    | [] => if intPart = [] then none else some (sign * (digitsToNat intPart : ℚ))
    | '.' :: frac =>
      if frac.all Char.isDigit ∧ (intPart ≠ [] ∨ frac ≠ []) then
        some (sign * ((digitsToNat intPart : ℚ) +
          (digitsToNat frac : ℚ) / (10 : ℚ) ^ frac.length))
      else none
    | _ => none

/-- extractor._clean_price. -/
def clean_price (raw : Option String) : Option ℚ :=
  match raw with
  | none => none
  | some s =>
    if s = "" then none
    else parsePyFloat (reSub NON_PRICE_CHAR "" s)

/-- extractor._find_column_index. -/
def find_column_index (headers : List String) (pat : RE) : Option ℕ :=
  ((pyEnumerate headers).find? (fun p => p.2 ≠ "" && reTest pat p.2)).map (·.1)

/-- extractor._extract_tables_from_pages. -/
def extract_tables_from_pages (pages : List PdfPage) : List PageTable :=
  (pyEnumerate pages).flatMap (fun p =>
    p.2.tables.filterMap (fun t =>
      if t.data ≠ [] then some (⟨p.1, t.bbox, t.cells, t.data⟩ : PageTable) else none))

/-- extractor._extract_text_from_pages. -/
def extract_text_from_pages (pages : List PdfPage) : String × List PageText :=
  let pts := (pyEnumerate pages).filterMap (fun p =>
    match p.2.text with
    | none => none
    | some t => if t = "" then none else some (⟨p.1, t⟩ : PageText))
  (String.intercalate "\n" (pts.map (·.text)), pts)

/-- extractor._extract_serial_from_text: serial embedded in description text,
with the IP-address rejection. -/
def extract_serial_from_text (text : String) : Option String :=
  match reSearch SN_IN_TEXT text with
  | none => none
  | some o =>
    let sn := strTrim (capVal o)
    if isIpAddress sn then none else some sn

/-- The `false_positives` set of `_find_po_number`. -/
def po_false_positives : List String :=
  ["VENDOR", "TO", "NUMBER", "NO", "DATE", "UPDATE", "REQUEST", "DETERMINED",
   "HOLD", "PAGE", "CUSTOMER"]

/-- extractor._find_po_number. -/
def find_po_number (text : String) : String :=
  let pats := [PO_PAT1, PO_PAT2, PO_PAT3, PO_PAT4, PO_PAT5, PO_PAT6]
  (pats.foldl (fun acc pat =>
    match acc with
    | some v => some v
    | none =>
      match reSearch pat text with
      | none => none
      | some o =>
        let val := strTrim (capVal o)
        if strUpper val ∈ po_false_positives then none else some val) none).getD ""

/-- extractor._find_header_row. -/
def find_header_row (table : List (List (Option String))) : ℕ :=
  let pats := [SN_HEADER_PATTERNS, PRICE_HEADER_PATTERNS, QTY_HEADER_PATTERNS, HDR_DESC_PATTERN]
  let score := fun (row : List (Option String)) =>
    row.foldl (fun (sc : ℕ) cell =>
      match cell with
      | none => sc
      | some s =>
        if s = "" then sc
        else if pats.any (fun p => reTest p (strTrim s)) then sc + 1 else sc) 0
  ((pyEnumerate (table.take 8)).foldl
    (fun (best : ℕ × ℕ) p => if score p.2 > best.2 then (p.1, score p.2) else best) (0, 0)).1

/-- extractor._find_desc_column_index. -/
def find_desc_column_index (headers : List String) : Option ℕ :=
  match ((pyEnumerate headers).find? (fun p => p.2 ≠ "" && reTest DESC_P1 p.2)).map (·.1) with
  | some i => some i
  | none =>
    match ((pyEnumerate headers).find? (fun p => p.2 ≠ "" && reTest DESC_P2 p.2)).map (·.1) with
    | some i => some i
    | none =>
      ((pyEnumerate headers).find? (fun p =>
        p.2 ≠ "" && (reTest ITEM_PATTERN (reSub WS_PLUS " " p.2)
          && !reTest ITEM_EXCLUDE (reSub WS_PLUS " " p.2)))).map (·.1)

/-- The `_cell` helper of `_parse_table`: safe indexing with Python
truthiness (a present but empty cell yields None, otherwise the stripped
cell text, which may strip to empty). -/
def cellAt (row : List (Option String)) (idx : Option ℕ) : Option String :=
  match idx with
  | none => none
  | some i =>
    if row.length ≤ i then none
    else
      match (row.get? i).getD none with
      | none => none
      | some s => if s = "" then none else some (strTrim s)

/-- Stable insertion of `a` after every element not strictly greater
(auxiliary for the Python stable sort). -/
def insertLt {α : Type} (lt : α → α → Bool) (a : α) : List α → List α
  | [] => [a]
  | b :: rest => if lt a b then a :: b :: rest else b :: insertLt lt a rest

/-- Python `sorted` / `list.sort`: stable ascending sort by a strict
comparison (insertion sort; identical output to any stable sort). -/
def pySort {α : Type} (lt : α → α → Bool) (l : List α) : List α :=
  l.foldl (fun acc a => insertLt lt a acc) []

/-- Componentwise union of two bounding boxes (the row-bbox merge). -/
def mergeBbox (a b : Bbox) : Bbox :=
  (min a.1 b.1, min a.2.1 b.2.1, max a.2.2.1 b.2.2.1, max a.2.2.2 b.2.2.2)

/-- The row-bbox map of `_parse_table`: group cells by rounded top edge
with a two-point tolerance, then union the boxes of each group. -/
def rowBboxes (cells : List Bbox) : List (ℕ × Bbox) :=
  let y_tops := pySort (fun a b => a < b) ((cells.map (fun c => pyRound c.2.1 1)).dedup)
  let merged_y := y_tops.foldl (fun (acc : List ℚ) y =>
    match acc.getLast? with
    | some last => if |y - last| < 2 then acc else acc ++ [y]
    | none => [y]) []
  let yToRow := fun (y : ℚ) =>
    match (pyEnumerate merged_y).find? (fun p => |y - p.2| < 2) with
    | some p => p.1
    | none => merged_y.length
  cells.foldl (fun (m : List (ℕ × Bbox)) cell =>
    let row_i := yToRow (pyRound cell.2.1 1)
    match m.find? (fun p => p.1 == row_i) with
    | none => m ++ [(row_i, cell)]
    | some _ => m.map (fun p => if p.1 == row_i then (p.1, mergeBbox p.2 cell) else p)) []

/-- The header row of a table, stripped, as `_parse_table` computes it. -/
def tableRawHeaders (table : List (List (Option String))) : List String :=
  ((table.get? (find_header_row table)).getD []).map (fun c =>
    match c with
    | none => ""
    | some s => if s = "" then "" else strTrim s)

/-- The per-row body of the `_parse_table` loop: skip blank and
subtotal/tax/routing rows, read the serial, description, prices and
quantity cells, fall back to a description-embedded serial when there is
no serial cell, and skip rows with no meaningful content.  `p` is the
(data row index, row) pair. -/
def parseTableRow (page_index hdr_idx : ℕ) (sn_idx price_idx qty_idx desc_idx : Option ℕ)
    (raw_headers : List String) (row_bboxes : List (ℕ × Bbox))
    (p : ℕ × List (Option String)) : Option POLineItem :=
  let data_row_idx := p.1
  let row := p.2
  if row.all (fun c => !truthyO c) then none
  else
    let row_text := String.intercalate " "
      (row.filterMap (fun c => if truthyO c then c else none))
    if reTest SKIP_ROW_PAT row_text then none
    else
      let sn0 := cellAt row sn_idx
      let description :=
        strTrim (reSub WS_NL_WS " " ((cellAt row desc_idx).getD ""))
      let sn := if !truthyO sn0 && description ≠ ""
                then extract_serial_from_text description else sn0
      let unit_price := clean_price (cellAt row price_idx)
      let quantity : Option ℤ :=
        match cellAt row qty_idx with
        | none => none
        | some qty_raw =>
          if qty_raw = "" then none
          else
            let digits := reSub NON_DIGIT "" qty_raw
            if digits = "" then none
            else some (digitsToNat digits.toList : ℤ)
      let extended_price : Option ℚ :=
        match price_idx with
        | none => none
        | some pidx =>
          let price_indices := (pyEnumerate raw_headers).filterMap
            (fun q => if reTest PRICE_HEADER_PATTERNS q.2 && q.2 ≠ ""
                      then some q.1 else none)
          match price_indices.getLast? with
          | some lastIdx =>
            if 1 < price_indices.length ∧ lastIdx ≠ pidx
            then clean_price (cellAt row (some lastIdx))
            else none
          | none => none
      if sn = none ∧ unit_price = none ∧ description = "" then none
      else
        let abs_row_idx := hdr_idx + 1 + data_row_idx
        let item_bbox := (row_bboxes.find? (fun q => q.1 == abs_row_idx)).map (fun q => q.2)
        some ⟨sn, description, unit_price, quantity, extended_price,
              some page_index, item_bbox⟩

/-- extractor._parse_table: parse a single table into line items plus a
confidence score. -/
def parse_table (page_table : PageTable) : List POLineItem × ℚ :=
  let table := page_table.data
  let cells := page_table.cells
  if table.length < 2 then ([], 0)
  else
    let hdr_idx := find_header_row table
    if table.length - 1 ≤ hdr_idx then ([], 0)
    else
      let raw_headers := tableRawHeaders table
      let sn_idx := find_column_index raw_headers SN_HEADER_PATTERNS
      let price_idx := find_column_index raw_headers PRICE_HEADER_PATTERNS
      let qty_idx := find_column_index raw_headers QTY_HEADER_PATTERNS
      let desc_idx := find_desc_column_index raw_headers
      if price_idx = none ∧ sn_idx = none then ([], 0)
      else
        let row_bboxes := rowBboxes cells
        let items := (pyEnumerate (table.drop (hdr_idx + 1))).filterMap
          (parseTableRow page_table.page_index hdr_idx sn_idx price_idx qty_idx
            desc_idx raw_headers row_bboxes)
        if items = [] then ([], 0)
        else
          let cols_found : ℕ :=
            [sn_idx, price_idx, qty_idx, desc_idx].countP Option.isSome
          let col_conf : ℚ := (cols_found : ℚ) / 4
          let rows_with_sn : ℕ := items.countP (fun it => truthyO it.serial_number)
          let rows_with_price : ℕ := items.countP (fun it => it.unit_price.isSome)
          let data_conf : ℚ :=
            ((rows_with_sn : ℚ) + (rows_with_price : ℚ)) / (2 * (items.length : ℚ))
          (items, pyRound ((1/2) * col_conf + (1/2) * data_conf) 3)

/-- The per-item walk of `_enrich_items_with_text_sns`, threading the
iterator of still-unassigned serial numbers. -/
def enrichGo : List POLineItem → List String → List POLineItem
  | [], _ => []
  | it :: rest, sns =>
    if truthyO it.serial_number then it :: enrichGo rest sns
    else
      match sns with
      | [] => it :: enrichGo rest []
      | sn :: snrest =>
        (if sn ≠ "" then { it with serial_number := some sn } else it) :: enrichGo rest snrest

/-- extractor._enrich_items_with_text_sns.  The Python mutates the items in
place; here the updated list is returned. -/
def enrich_items_with_text_sns (items : List POLineItem) (raw_text : String) :
    List POLineItem :=
  let all_sns := reFindAll SN_IN_TEXT raw_text
  if all_sns = [] then items
  else
    let assigned := items.filterMap
      (fun it => if truthyO it.serial_number then it.serial_number else none)
    let valid := (all_sns.map (fun sn => strTrim sn)).filter
      (fun sn => !isIpAddress sn && !assigned.contains sn)
    enrichGo items valid

/-- The j-loop of `_parse_text_lines` growing the description from the next
two lines, with its break/continue structure. -/
def descLoop : List String → String → String
  | [], d => d
  | nl0 :: rest, d =>
    let nl := strTrim nl0
    if nl = "" then descLoop rest d
    else if reTest PRICE_PAT nl then d
    else if 80 < nl.length then d
    else if reTest SKIP_LINE_PAT nl then d
    else descLoop rest (String.mk ((d ++ " | " ++ nl).toList.take 250))

/-- Python string slice `s[:n]`. -/
def strTake (s : String) (n : ℕ) : String := String.mk (s.toList.take n)

/-- extractor._parse_text_lines: regex-based fallback parser over raw page
text. -/
def parse_text_lines (page_texts : List PageText) : List POLineItem :=
  page_texts.flatMap (fun pt =>
    let lines := strSplitOn pt.text "\n"
    (List.range lines.length).filterMap (fun i =>
      let line := (lines.get? i).getD ""
      let prices_in_line := reFindAll PRICE_PAT line
      if prices_in_line = [] then none
      else
        let valid := prices_in_line.filter (fun p => (clean_price (some p)).isSome)
        if valid = [] then none
        else
          let context_start := i - 2
          let context_end := min lines.length (i + 7)
          let context := String.intercalate "\n"
            ((lines.drop context_start).take (context_end - context_start))
          let sn := extract_serial_from_text context
          let unit_price :=
            if 2 ≤ valid.length then clean_price (valid.get? (valid.length - 2))
            else clean_price valid.getLast?
          let ext_price :=
            if 2 ≤ valid.length then clean_price valid.getLast? else none
          let desc0 := strTrim (reSub PRICE_PAT "" line)
          let desc1 := strTake (reSub WS2PLUS " " desc0) 120
          let js := (lines.drop (i+1)).take (min lines.length (i+3) - (i+1))
          let desc := descLoop js desc1
          let first_part := strTrim ((strSplitOn desc "|").headD "")
          if reTest SKIP_LINE_PAT first_part then none
          else some (⟨sn, desc, unit_price, some 1, ext_price, some pt.page_index, none⟩ :
            POLineItem)))

/-- extractor.extract_with_pdfplumber, parameterised by what pdfplumber
returned for each page (`none` if `pdfplumber.open` raised). -/
def extract_with_pdfplumber (opened : Option (List PdfPage)) : Option POExtraction :=
  match opened with
  | none => none
  | some pages =>
    let rt := extract_text_from_pages pages
    let raw_text := rt.1
    let page_texts := rt.2
    let tables := extract_tables_from_pages pages
    if raw_text = "" ∧ tables = [] then none
    else
      let po_number := find_po_number raw_text
      let best := tables.foldl (fun (b : List POLineItem × ℚ) tbl =>
        let r := parse_table tbl
        if r.2 > b.2 then r else b) ([], 0)
      if best.1 ≠ [] then
        some ⟨po_number, enrich_items_with_text_sns best.1 raw_text, best.2, "table",
              strTake raw_text 5000⟩
      else
        let text_items := parse_text_lines page_texts
        if text_items ≠ [] then
          some ⟨po_number, text_items, 1/2, "text", strTake raw_text 5000⟩
        else
          some ⟨po_number, [], 1/10, "none", strTake raw_text 5000⟩

/-- extractor.extract_po_data: the two-tier orchestrator.  `llm_result` is
what `extract_with_llm` returned (network call; `none` covers a missing API
key, a render/API failure, or bad JSON). -/
def extract_po_data (opened : Option (List PdfPage)) (llm_result : Option POExtraction) :
    POExtraction :=
  let table_result := extract_with_pdfplumber opened
  match table_result with
  | some t =>
    if CONFIDENCE_THRESHOLD ≤ t.confidence then t
    else
      match llm_result with
      | some l =>
        if l.line_items ≠ [] then
          if t.raw_text ≠ "" then { l with raw_text := t.raw_text } else l
        else t
      | none => t
  | none =>
    match llm_result with
    | some l => if l.line_items ≠ [] then l else ⟨"", [], 0, "none", ""⟩
    | none => ⟨"", [], 0, "none", ""⟩

/- ---------------------------------------------------------------------
   Validation (app/po_validator/__init__.py)
--------------------------------------------------------------------- -/

/-- PRICE_TOLERANCE (tolerance for price comparison, ±). -/
def PRICE_TOLERANCE : ℚ := 1/100

/-- _search_text_for: fallback search text for a PO line item (PO serial,
then work-item serial, then description). -/
def search_text_for (item : POLineItem) (wi_serial : Option String) : String :=
  if truthyO item.serial_number then item.serial_number.getD ""
  else if truthyO wi_serial then wi_serial.getD ""
  else item.description

/-- _normalise_sn: uppercase, strip, drop dashes and spaces. -/
def normalise_sn (sn : String) : String :=
  strReplace (strReplace (strUpper (strTrim sn)) "-" "") " " ""

/-- _match_sn: fuzzy serial-number match (case, dashes, spaces, leading
zeros, containment of strings of length at least four). -/
def match_sn (sn1 sn2 : String) : Bool :=
  let a := normalise_sn sn1
  let b := normalise_sn sn2
  if a = b then true
  else if a.toList.dropWhile (fun c => c = '0') = b.toList.dropWhile (fun c => c = '0') then true
  else if 4 ≤ a.length ∧ 4 ≤ b.length then
    listInfix a.toList b.toList || listInfix b.toList a.toList
  else false

/-- The `_wi_price` helper: service_charge if present, else service_total. -/
def wiPrice (wi : WorkItem) : Option ℚ :=
  match wi.service_charge with
  | some c => some c
  | none => wi.service_total

/-- The `_po_price` helper: unit price if present, else extended price. -/
def poPrice (item : POLineItem) : Option ℚ :=
  match item.unit_price with
  | some u => some u
  | none => item.extended_price

/-- The `wi_entries` list: one `(normalised serial, work item)` entry per
work item with a truthy serial number (duplicates preserved). -/
def wiEntries (work_items : List WorkItem) : List (String × WorkItem) :=
  work_items.filterMap (fun wi =>
    if truthyO wi.serial_number then some (normalise_sn (wi.serial_number.getD ""), wi)
    else none)

/-- A phase-1 candidate tuple `(|diff|, wi_idx, po_idx, expected, po_price)`. -/
structure Cand where
  adiff : ℚ
  wi : ℕ
  po : ℕ
  expected : ℚ
  pop : ℚ
deriving DecidableEq, Repr, Inhabited

/-- Strict lexicographic comparison of candidate tuples (Python tuple `<`). -/
def candLT (c d : Cand) : Bool :=
  if c.adiff < d.adiff then true
  else if d.adiff < c.adiff then false
  else if c.wi < d.wi then true
  else if d.wi < c.wi then false
  else if c.po < d.po then true
  else if d.po < c.po then false
  else if c.expected < d.expected then true
  else if d.expected < c.expected then false
  else c.pop < d.pop

/-- State threaded through the two matching phases.  `pairs` records each
accepted `(wi_idx, po_idx)` match in order; the Python sets
`matched_wi_idxs` / `matched_po_idxs` are exactly its two projections,
since the code adds both indices to the sets whenever a match is accepted. -/
structure MatchState where
  mismatches : List PriceMismatch
  annotations : List LineAnnotation
  checked : ℕ
  matched_count : ℕ
  pairs : List (ℕ × ℕ)
deriving DecidableEq, Repr, Inhabited

def matchedWi (st : MatchState) : List ℕ := st.pairs.map Prod.fst

def matchedPo (st : MatchState) : List ℕ := st.pairs.map Prod.snd

def emptyMatchState : MatchState := ⟨[], [], 0, 0, []⟩

/-- The accept-a-match block shared verbatim by both phases: bump `checked`,
then either an "ok" annotation (within tolerance) or a PriceMismatch plus a
"mismatch" annotation. -/
def acceptMatch (st : MatchState) (wiIdx poIdx : ℕ) (po_item : POLineItem)
    (expected pop : ℚ) (mismatchSerial : String) (searchSerial : Option String)
    (wiId : Option ℤ) : MatchState :=
  if |pop - expected| ≤ PRICE_TOLERANCE then
    { st with
      checked := st.checked + 1
      matched_count := st.matched_count + 1
      annotations := st.annotations ++
        [⟨"ok", "", po_item.page_number, po_item.bbox, search_text_for po_item searchSerial⟩]
      pairs := st.pairs ++ [(wiIdx, poIdx)] }
  else
    { st with
      checked := st.checked + 1
      mismatches := st.mismatches ++
        [⟨mismatchSerial, pop, expected, pyRound (pop - expected) 2, po_item.description, wiId⟩]
      annotations := st.annotations ++
        [⟨"mismatch", "Expected $" ++ fmt2f expected ++ ", PO says $" ++ fmt2f pop,
          po_item.page_number, po_item.bbox, search_text_for po_item searchSerial⟩]
      pairs := st.pairs ++ [(wiIdx, poIdx)] }

/-- Phase-1 candidate generation: every (work item with an expected price,
PO line with a truthy serial matching the entry key and a price) pair. -/
def phase1Candidates (entries : List (String × WorkItem)) (items : List POLineItem) :
    List Cand :=
  (pyEnumerate entries).flatMap (fun p =>
    match wiPrice p.2.2 with
    | none => []
    | some expected =>
      (pyEnumerate items).filterMap (fun q =>
        if !truthyO q.2.serial_number then none
        else if !match_sn (q.2.serial_number.getD "") p.2.1 then none
        else
          match poPrice q.2 with
          | none => none
          | some pop => some ⟨|pop - expected|, p.1, q.1, expected, pop⟩))

/-- One step of the phase-1 elimination loop over sorted candidates. -/
def phase1Step (entries : List (String × WorkItem)) (items : List POLineItem)
    (st : MatchState) (c : Cand) : MatchState :=
  if c.wi ∈ matchedWi st ∨ c.po ∈ matchedPo st then st
  else
    let wi := ((entries.get? c.wi).getD ("", default)).2
    let po_item := (items.get? c.po).getD default
    acceptMatch st c.wi c.po po_item c.expected c.pop
      (pyOr (po_item.serial_number.getD "") (pyOr (wi.serial_number.getD "") ""))
      wi.serial_number wi.work_item_id

/-- Phase 1: sort candidates by price difference and assign greedily. -/
def phase1 (entries : List (String × WorkItem)) (items : List POLineItem)
    (st : MatchState) : MatchState :=
  (pySort candLT (phase1Candidates entries items)).foldl (phase1Step entries items) st

/-- The best-remaining-price search of phase 2: the first unmatched priced
PO line with strictly smallest |price - expected|. -/
def bestPo (items : List POLineItem) (mpo : List ℕ) (expected : ℚ) : Option (ℕ × ℚ) :=
  (pyEnumerate items).foldl (fun best q =>
    if q.1 ∈ mpo then best
    else
      match poPrice q.2 with
      | none => best
      | some pop =>
        let d := |pop - expected|
        match best with
        | none => some (q.1, d)
        | some b => if d < b.2 then some (q.1, d) else best) none

/-- The `found_in_text` computation of phase 2: search variants of the
work-item serial (with and without a parenthetical) and the asset name in
the raw text, then in the PO line descriptions. -/
def phase2Found (items : List POLineItem) (raw_text : String) (wi : WorkItem) : Bool :=
  let sn_str := wi.serial_number.getD ""
  let asset := pyOr (wi.asset_name.getD "") (wi.asset_description.getD "")
  let sn_variants := if sn_str ≠ "" then [sn_str] else []
  let base_sn := strTrim (reSub PAREN_PAT "" sn_str)
  let sn_variants := if base_sn ≠ "" ∧ base_sn ≠ sn_str
                     then sn_variants ++ [base_sn] else sn_variants
  let found_in_text :=
    sn_variants.any (fun v => substr v raw_text) ||
      (asset ≠ "" && substr (strLower asset) (strLower raw_text))
  if found_in_text then true
  else items.any (fun po_item =>
    let desc := po_item.description
    sn_variants.any (fun v => substr v desc) ||
      (asset ≠ "" && substr (strLower asset) (strLower desc)))

/-- One step of the phase-2 text-fallback loop for a single work-item entry. -/
def phase2Step (items : List POLineItem) (raw_text : String)
    (st : MatchState) (wiIdx : ℕ) (e : String × WorkItem) : MatchState :=
  if wiIdx ∈ matchedWi st then st
  else
    let wi := e.2
    let sn_str := wi.serial_number.getD ""
    if !phase2Found items raw_text wi then st
    else
      match wiPrice wi with
      | none => st
      | some expected =>
        match bestPo items (matchedPo st) expected with
        | none => st
        | some b =>
          let po_item := (items.get? b.1).getD default
          let pop := (poPrice po_item).getD 0
          acceptMatch st wiIdx b.1 po_item expected pop sn_str (some sn_str)
            wi.work_item_id

/-- Phase 2: the fallback loop over all work-item entries. -/
def phase2 (entries : List (String × WorkItem)) (items : List POLineItem)
    (raw_text : String) (st : MatchState) : MatchState :=
  (pyEnumerate entries).foldl (fun s p => phase2Step items raw_text s p.1 p.2) st

/-- Both matching phases from the empty state. -/
def runPhases (entries : List (String × WorkItem)) (items : List POLineItem)
    (raw_text : String) : MatchState :=
  phase2 entries items raw_text (phase1 entries items emptyMatchState)

/-- The missing-work-items scan after phase 2. -/
def missingItems (entries : List (String × WorkItem)) (st : MatchState) :
    List MissingWorkItem :=
  (pyEnumerate entries).filterMap (fun p =>
    if p.1 ∈ matchedWi st then none
    else some ⟨(p.2.2.work_item_id.getD 0), p.2.2.serial_number.getD "",
               p.2.2.asset_name.getD "", wiPrice p.2.2⟩)

/-- The unverified annotations for unmatched priced PO lines. -/
def unverifiedAnnotations (items : List POLineItem) (st : MatchState) :
    List LineAnnotation :=
  (pyEnumerate items).filterMap (fun q =>
    if q.1 ∈ matchedPo st then none
    else if (poPrice q.2).isSome then
      some ⟨"unverified", "Not matched to a Qualer work item",
            q.2.page_number, q.2.bbox, search_text_for q.2 none⟩
    else none)

/-- The quick content check of validate: the first page text contains both
markers (case-insensitively).  `none` models the try-block raising, in
which case validation proceeds. -/
def skipCond (firstText : Option String) : Bool :=
  match firstText with
  | none => false
  | some t => substr "order price update" (strLower t) && substr "request for po" (strLower t)

/-- Whether any extracted line item carries a price (the `has_any_price`
check of validate). -/
def hasAnyPrice (extraction : POExtraction) : Bool :=
  extraction.line_items.any (fun item =>
    item.unit_price.isSome || item.extended_price.isSome)

/-- Everything after phase 2 of validate: missing-item scan, unverified
annotations, status determination and result assembly from the final
matching state. -/
def assembleResult (document_name : String) (service_order_id : ℤ)
    (work_items : List WorkItem) (extraction : POExtraction) (st : MatchState) :
    ValidationResult :=
  let entries := wiEntries work_items
  let items := extraction.line_items
  let missing := missingItems entries st
  let anns := st.annotations ++ unverifiedAnnotations items st
  let has_problems := st.mismatches ≠ [] ∨ missing ≠ []
  let final_status := if has_problems then "fail" else "pass"
  let notes_parts : List String :=
    (if missing ≠ [] then [toString missing.length ++ " work item(s) not found on PO"]
     else []) ++
    (if st.checked = 0 ∧ st.mismatches = []
     then ["No S/N matches found between PO and Qualer"] else [])
  ⟨document_name, extraction.po_number, some service_order_id, final_status,
   st.mismatches, missing, anns, items.length, st.checked, st.matched_count,
   work_items.length, extraction.extraction_method, extraction.confidence,
   String.intercalate "; " notes_parts⟩

/-- The main branch of validate (reached when work items exist, the quick
check did not fire, extraction produced line items, and some line carries
a price): the two matching phases followed by result assembly. -/
def validateMain (document_name : String) (service_order_id : ℤ)
    (work_items : List WorkItem) (extraction : POExtraction) : ValidationResult :=
  assembleResult document_name service_order_id work_items extraction
    (runPhases (wiEntries work_items) extraction.line_items (pyOr extraction.raw_text ""))

/-- po_validator.validate.  `firstText` is what the quick pdfplumber check
extracted from the first page (`none` when that try-block raised), `opened`
what pdfplumber produced for the main extraction, `llm_result` what the
Gemini tier returned. -/
def validate (firstText : Option String) (opened : Option (List PdfPage))
    (llm_result : Option POExtraction) (service_order_id : ℤ)
    (work_items : List WorkItem) (document_name : String) : ValidationResult :=
  if work_items = [] then
    ⟨document_name, "", some service_order_id, "extraction_failed", [], [], [],
     0, 0, 0, 0, "none", 0, "No work items found in Qualer for this order"⟩
  else if skipCond firstText then
    ⟨document_name, "", some service_order_id, "skipped", [], [], [],
     0, 0, 0, 0, "none", 0,
     "Document is an outbound price-update request, not a customer PO"⟩
  else
    let extraction := extract_po_data opened llm_result
    if extraction.line_items = [] then
      ⟨document_name, extraction.po_number, some service_order_id, "extraction_failed",
       [], [], [], 0, 0, 0, work_items.length, extraction.extraction_method,
       extraction.confidence, "No line items could be extracted from PO"⟩
    else if !hasAnyPrice extraction then
      ⟨document_name, extraction.po_number, some service_order_id, "no_pricing",
       [], [], [], 0, extraction.line_items.length, 0, work_items.length,
       extraction.extraction_method, extraction.confidence,
       "PO contains no pricing — acceptable per policy"⟩
    else validateMain document_name service_order_id work_items extraction

/-- po_validator.validate_and_annotate.  `annotateFn` stands for
annotator.annotate_pdf (PyMuPDF rendering; `.error` is a raised exception).
The source wraps the call in `try/except Exception`, so a rendering failure
is caught and degraded to `(None, "", result)`; the returned Except is
always `.ok`. -/
def validate_and_annotate (annotateFn : ValidationResult → Except String (String × String))
    (firstText : Option String) (opened : Option (List PdfPage))
    (llm_result : Option POExtraction) (service_order_id : ℤ)
    (work_items : List WorkItem) (document_name : String) :
    Except String (Option String × String × ValidationResult) :=
  let result := validate firstText opened llm_result service_order_id work_items document_name
  if result.status = "skipped" then .ok (none, "", result)
  else
    match annotateFn result with
    | .ok okv => .ok (some okv.1, okv.2, result)
    | .error _ => .ok (none, "", result)

/- ---------------------------------------------------------------------
   Invariant and concrete scenario definitions used by the theorems
--------------------------------------------------------------------- -/

/-- The invariant carried through both matching phases: the matched sets
are duplicate-free, pair indices are in range, `checked` counts accepted
pairs, and every accepted pair produced either a mismatch or an ok match. -/
def StInv (n m : ℕ) (st : MatchState) : Prop :=
  (matchedWi st).Nodup ∧ (matchedPo st).Nodup ∧
  (∀ p ∈ st.pairs, p.1 < n ∧ p.2 < m) ∧
  st.checked = st.pairs.length ∧
  st.mismatches.length + st.matched_count = st.pairs.length

/-- A work item with serial "SN1" and the given service charge. -/
def wiSN1 (charge : ℚ) : WorkItem := ⟨some 7, some "SN1", none, none, some charge, none⟩

/-- A work item without any serial number. -/
def wiNoSerial : WorkItem := ⟨some 1, none, none, none, some 100, some 100⟩

/-- A single-line tier-2 extraction whose item has serial "SN1" and the
given unit price (reachable output of extract_po_data via the LLM tier). -/
def extrSN1 (pop : ℚ) : POExtraction :=
  ⟨"PO1", [⟨some "SN1", "desc", some pop, none, none, some 0, none⟩], 9/10, "llm", ""⟩

/-- The concrete validate run refuting C3: one work item carrying no serial
number, against an extraction with one priced line. -/
def c3Run : ValidationResult :=
  validate (some "") none (some (extrSN1 50)) 1 [wiNoSerial] "d"

/-- The text used in C5 scenarios: contains both skip markers. -/
def skipText : String := "Order Price Update - Request for PO"

/-- The matching state after the single in-tolerance match of the C4
scenario. -/
def stOkC4 : MatchState :=
  ⟨[], [⟨"ok", "", some 0, none, "SN1"⟩], 1, 1, [(0, 0)]⟩

/-- The matching state after the single out-of-tolerance match of the C4
scenario. -/
def stMmC4 (expected pop : ℚ) : MatchState :=
  ⟨[⟨"SN1", pop, expected, pyRound (pop - expected) 2, "desc", some 7⟩],
   [⟨"mismatch", "Expected $" ++ fmt2f expected ++ ", PO says $" ++ fmt2f pop,
     some 0, none, "SN1"⟩],
   1, 0, [(0, 0)]⟩

/-- A concrete pdfplumber page whose single table parses with full
confidence (all four columns recognised, every row carrying serial and
price). -/
def highConfPage : PdfPage :=
  ⟨none, [⟨(0, 0, 100, 100), [],
    [[some "Serial Number", some "Description", some "Qty", some "Price"],
     [some "SN123", some "Cal service", some "1", some "$100.00"]]⟩]⟩

/-- The tier-1 result of the high-confidence page. -/
def highConfExtr : POExtraction :=
  ⟨"", [⟨some "SN123", "Cal service", some 100, some 1, none, some 0, none⟩],
   1, "table", ""⟩

/-- An annotation oracle that always raises (a rendering failure). -/
def failingAnnotate : ValidationResult → Except String (String × String) :=
  fun _ => Except.error "render failure"

/-- A pdfplumber page whose table has a dedicated serial-number column
containing an IP-address-shaped token. -/
def ipPage : PdfPage :=
  ⟨none, [⟨(0, 0, 100, 100), [],
    [[some "Serial Number", some "Description", some "Price"],
     [some "10.0.0.1", some "Device cal", some "$50.00"]]⟩]⟩

/- ---------------------------------------------------------------------
   Auxiliary lemmas
--------------------------------------------------------------------- -/

theorem mem_pyEnumerateFrom {α : Type} {k : ℕ} {l : List α} {p : ℕ × α}
    (h : p ∈ pyEnumerateFrom k l) : k ≤ p.1 ∧ p.1 < k + l.length := by
  induction l generalizing k with
  | nil => simp [pyEnumerateFrom] at h
  | cons a as ih =>
    simp only [pyEnumerateFrom, List.mem_cons] at h
    rcases h with h | h
    · subst h; simp
    · have := ih h
      simp only [List.length_cons]
      omega

theorem mem_pyEnumerate_lt {α : Type} {l : List α} {p : ℕ × α}
    (h : p ∈ pyEnumerate l) : p.1 < l.length := by
  have := mem_pyEnumerateFrom (k := 0) h
  omega

theorem mem_insertLt {α : Type} {lt : α → α → Bool} {a x : α} {l : List α}
    (h : x ∈ insertLt lt a l) : x = a ∨ x ∈ l := by
  induction l with
  | nil => simpa [insertLt] using h
  | cons b rest ih =>
    simp only [insertLt] at h
    split at h
    · rcases List.mem_cons.1 h with h | h
      · exact Or.inl h
      · exact Or.inr h
    · rcases List.mem_cons.1 h with h | h
      · exact Or.inr (by simp [h])
      · rcases ih h with h | h
        · exact Or.inl h
        · exact Or.inr (List.mem_cons_of_mem _ h)

theorem mem_pySort {α : Type} {lt : α → α → Bool} {x : α} {l : List α}
    (h : x ∈ pySort lt l) : x ∈ l := by
  suffices H : ∀ (l acc : List α), x ∈ l.foldl (fun acc a => insertLt lt a acc) acc →
      x ∈ acc ∨ x ∈ l by
    rcases H l [] h with h | h
    · simp at h
    · exact h
  intro l
  induction l with
  | nil => intro acc h; exact Or.inl h
  | cons a rest ih =>
    intro acc h
    rcases ih _ h with h | h
    · rcases mem_insertLt h with h | h
      · exact Or.inr (by simp [h])
      · exact Or.inl h
    · exact Or.inr (List.mem_cons_of_mem _ h)


theorem stInv_empty (n m : ℕ) : StInv n m emptyMatchState := by
  simp [StInv, emptyMatchState, matchedWi, matchedPo]

theorem acceptMatch_fields (st : MatchState) (w p : ℕ) (itm : POLineItem)
    (e q : ℚ) (ser : String) (sser : Option String) (wid : Option ℤ) :
    (acceptMatch st w p itm e q ser sser wid).pairs = st.pairs ++ [(w, p)] ∧
    (acceptMatch st w p itm e q ser sser wid).checked = st.checked + 1 ∧
    (acceptMatch st w p itm e q ser sser wid).mismatches.length +
        (acceptMatch st w p itm e q ser sser wid).matched_count
      = st.mismatches.length + st.matched_count + 1 := by
  by_cases h : |q - e| ≤ PRICE_TOLERANCE <;>
    refine ⟨?_, ?_, ?_⟩ <;>
      simp [acceptMatch, h] <;> omega

theorem stInv_accept {n m : ℕ} {st : MatchState} {w p : ℕ} {itm : POLineItem}
    {e q : ℚ} {ser : String} {sser : Option String} {wid : Option ℤ}
    (hInv : StInv n m st) (hw : w < n) (hp : p < m)
    (hwm : w ∉ matchedWi st) (hpm : p ∉ matchedPo st) :
    StInv n m (acceptMatch st w p itm e q ser sser wid) := by
  obtain ⟨h1, h2, h3, h4, h5⟩ := hInv
  obtain ⟨hpairs, hchecked, hcount⟩ := acceptMatch_fields st w p itm e q ser sser wid
  refine ⟨?_, ?_, ?_, ?_, ?_⟩
  · have hmw : matchedWi (acceptMatch st w p itm e q ser sser wid) = matchedWi st ++ [w] := by
      simp [matchedWi, hpairs]
    rw [hmw]
    refine List.Nodup.append h1 (by simp) ?_
    intro a ha hb
    simp at hb
    exact hwm (hb ▸ ha)
  · have hmp : matchedPo (acceptMatch st w p itm e q ser sser wid) = matchedPo st ++ [p] := by
      simp [matchedPo, hpairs]
    rw [hmp]
    refine List.Nodup.append h2 (by simp) ?_
    intro a ha hb
    simp at hb
    exact hpm (hb ▸ ha)
  · intro x hx
    rw [hpairs] at hx
    rcases List.mem_append.1 hx with hx | hx
    · exact h3 x hx
    · simp at hx
      simp [hx, hw, hp]
  · rw [hchecked, hpairs, h4]
    simp
  · rw [hcount, hpairs, h5]
    simp

theorem phase1Candidates_bounds {entries : List (String × WorkItem)}
    {items : List POLineItem} {c : Cand} (h : c ∈ phase1Candidates entries items) :
    c.wi < entries.length ∧ c.po < items.length := by
  unfold phase1Candidates at h
  rcases List.mem_flatMap.1 h with ⟨p, hp, hmem⟩
  have hplt := mem_pyEnumerate_lt hp
  rcases hwp : wiPrice p.2.2 with _ | expected
  · simp [hwp] at hmem
  · rw [hwp] at hmem
    rcases List.mem_filterMap.1 hmem with ⟨q, hq, heq⟩
    have hqlt := mem_pyEnumerate_lt hq
    split_ifs at heq
    rcases hpp : poPrice q.2 with _ | pop
    · simp [hpp] at heq
    · rw [hpp] at heq
      simp only [Option.some.injEq] at heq
      rw [← heq]
      exact ⟨hplt, hqlt⟩

theorem phase1Step_inv {entries : List (String × WorkItem)} {items : List POLineItem}
    {st : MatchState} {c : Cand}
    (hw : c.wi < entries.length) (hp : c.po < items.length)
    (hInv : StInv entries.length items.length st) :
    StInv entries.length items.length (phase1Step entries items st c) := by
  unfold phase1Step
  split
  · exact hInv
  · next hguard =>
    push_neg at hguard
    exact stInv_accept hInv hw hp hguard.1 hguard.2

theorem phase1_inv (entries : List (String × WorkItem)) (items : List POLineItem)
    (st : MatchState) (hInv : StInv entries.length items.length st) :
    StInv entries.length items.length (phase1 entries items st) := by
  unfold phase1
  refine List.foldlRecOn _ _ _ hInv ?_
  intro b hb c hc
  have hc2 := mem_pySort hc
  obtain ⟨hw, hp⟩ := phase1Candidates_bounds hc2
  exact phase1Step_inv hw hp hb

theorem bestPo_spec {items : List POLineItem} {mpo : List ℕ} {e : ℚ}
    {b : ℕ × ℚ} (h : bestPo items mpo e = some b) :
    b.1 ∉ mpo ∧ b.1 < items.length := by
  unfold bestPo at h
  revert h
  refine List.foldlRecOn (motive := fun best : Option (ℕ × ℚ) =>
      best = some b → b.1 ∉ mpo ∧ b.1 < items.length) (pyEnumerate items) _ none ?_ ?_
  · intro hx
    cases hx
  · intro best hbest q hq hx
    by_cases hm : q.1 ∈ mpo
    · rw [if_pos hm] at hx
      exact hbest hx
    · rw [if_neg hm] at hx
      rcases hpp : poPrice q.2 with _ | pop
      · rw [hpp] at hx
        exact hbest hx
      · rw [hpp] at hx
        rcases best with _ | bb
        · dsimp only at hx
          simp only [Option.some.injEq] at hx
          rw [← hx]
          exact ⟨hm, mem_pyEnumerate_lt hq⟩
        · dsimp only at hx
          split at hx
          · simp only [Option.some.injEq] at hx
            rw [← hx]
            exact ⟨hm, mem_pyEnumerate_lt hq⟩
          · exact hbest hx

theorem phase2Step_inv {n : ℕ} {items : List POLineItem} {raw : String}
    {st : MatchState} {wiIdx : ℕ} {e : String × WorkItem}
    (hw : wiIdx < n) (hInv : StInv n items.length st) :
    StInv n items.length (phase2Step items raw st wiIdx e) := by
  by_cases hmem : wiIdx ∈ matchedWi st
  · simp only [phase2Step, if_pos hmem]
    exact hInv
  · simp only [phase2Step, if_neg hmem]
    by_cases hf : phase2Found items raw e.2
    case neg =>
      simp only [hf]
      exact hInv
    case pos =>
      simp only [hf, Bool.not_true, Bool.false_eq_true, if_false]
      rcases hwp : wiPrice e.2 with _ | expected
      · exact hInv
      · dsimp only
        rcases hbp : bestPo items (matchedPo st) expected with _ | b
        · exact hInv
        · dsimp only
          obtain ⟨hbm, hbl⟩ := bestPo_spec hbp
          exact stInv_accept hInv hw hbl hmem hbm

theorem phase2_inv (entries : List (String × WorkItem)) (items : List POLineItem)
    (raw : String) (st : MatchState) (hInv : StInv entries.length items.length st) :
    StInv entries.length items.length (phase2 entries items raw st) := by
  unfold phase2
  refine List.foldlRecOn _ _ _ hInv ?_
  intro b hb p hp
  exact phase2Step_inv (mem_pyEnumerate_lt hp) hb

theorem runPhases_inv (entries : List (String × WorkItem)) (items : List POLineItem)
    (raw : String) : StInv entries.length items.length (runPhases entries items raw) := by
  unfold runPhases
  exact phase2_inv _ _ _ _ (phase1_inv _ _ _ (stInv_empty _ _))

theorem filterMap_ite_length {β γ : Type} (L : List ℕ) (g : ℕ × β → γ) :
    ∀ (k : ℕ) (l : List β),
    ((pyEnumerateFrom k l).filterMap
        (fun p => if p.1 ∈ L then none else some (g p))).length +
      ((List.range' k l.length).filter (fun i => decide (i ∈ L))).length = l.length := by
  intro k l
  induction l generalizing k with
  | nil => rfl
  | cons a as ih =>
    have := ih (k + 1)
    by_cases h : k ∈ L <;>
      · simp [pyEnumerateFrom, List.range'_succ, List.filterMap_cons, List.filter_cons, h]
        omega

theorem filter_mem_length {L : List ℕ} {n : ℕ} (hn : L.Nodup) (hb : ∀ x ∈ L, x < n) :
    ((List.range n).filter (fun i => decide (i ∈ L))).length = L.length := by
  have h1 : ((List.range n).filter (fun i => decide (i ∈ L))).Nodup :=
    (List.nodup_range n).filter _
  have h2 : ((List.range n).filter (fun i => decide (i ∈ L))).toFinset = L.toFinset := by
    ext x
    simp only [List.mem_toFinset, List.mem_filter, List.mem_range, decide_eq_true_eq]
    exact ⟨fun h => h.2, fun h => ⟨hb x h, h⟩⟩
  calc ((List.range n).filter (fun i => decide (i ∈ L))).length
      = ((List.range n).filter (fun i => decide (i ∈ L))).toFinset.card :=
        (List.toFinset_card_of_nodup h1).symm
    _ = L.toFinset.card := by rw [h2]
    _ = L.length := List.toFinset_card_of_nodup hn

theorem missingItems_length {entries : List (String × WorkItem)} {st : MatchState}
    (hn : (matchedWi st).Nodup) (hb : ∀ x ∈ matchedWi st, x < entries.length) :
    (missingItems entries st).length + (matchedWi st).length = entries.length := by
  have h := filterMap_ite_length (matchedWi st)
    (fun p : ℕ × (String × WorkItem) =>
      (⟨p.2.2.work_item_id.getD 0, p.2.2.serial_number.getD "",
        p.2.2.asset_name.getD "", wiPrice p.2.2⟩ : MissingWorkItem)) 0 entries
  rw [← List.range_eq_range'] at h
  rw [filter_mem_length hn hb] at h
  exact h

theorem assembleResult_mismatches (doc : String) (soid : ℤ) (wis : List WorkItem)
    (e : POExtraction) (st : MatchState) :
    (assembleResult doc soid wis e st).mismatches = st.mismatches := rfl

theorem assembleResult_missing (doc : String) (soid : ℤ) (wis : List WorkItem)
    (e : POExtraction) (st : MatchState) :
    (assembleResult doc soid wis e st).missing_items = missingItems (wiEntries wis) st := rfl

theorem assembleResult_checked (doc : String) (soid : ℤ) (wis : List WorkItem)
    (e : POExtraction) (st : MatchState) :
    (assembleResult doc soid wis e st).line_items_checked = st.checked := rfl

theorem assembleResult_matched (doc : String) (soid : ℤ) (wis : List WorkItem)
    (e : POExtraction) (st : MatchState) :
    (assembleResult doc soid wis e st).line_items_matched = st.matched_count := rfl

theorem assembleResult_total (doc : String) (soid : ℤ) (wis : List WorkItem)
    (e : POExtraction) (st : MatchState) :
    (assembleResult doc soid wis e st).work_items_total = wis.length := rfl

theorem assembleResult_status (doc : String) (soid : ℤ) (wis : List WorkItem)
    (e : POExtraction) (st : MatchState) :
    (assembleResult doc soid wis e st).status =
      if st.mismatches ≠ [] ∨ missingItems (wiEntries wis) st ≠ [] then "fail"
      else "pass" := rfl

theorem wiEntries_length (wis : List WorkItem) :
    (wiEntries wis).length = (wis.filter (fun wi => truthyO wi.serial_number)).length := by
  unfold wiEntries
  induction wis with
  | nil => rfl
  | cons w ws ih =>
    by_cases h : truthyO w.serial_number <;>
      simp [List.filterMap_cons, List.filter_cons, h, ih]

theorem wiEntries_eq_nil {wis : List WorkItem}
    (h : ∀ wi ∈ wis, truthyO wi.serial_number = false) : wiEntries wis = [] := by
  unfold wiEntries
  induction wis with
  | nil => rfl
  | cons w ws ih =>
    simp only [List.filterMap_cons, h w (by simp), Bool.false_eq_true, if_false]
    exact ih (fun wi hwi => h wi (List.mem_cons_of_mem _ hwi))

theorem validate_main_eq (ft : Option String) (op : Option (List PdfPage))
    (llm : Option POExtraction) (soid : ℤ) (wis : List WorkItem) (doc : String)
    (h1 : wis ≠ []) (h2 : skipCond ft = false)
    (h3 : (extract_po_data op llm).line_items ≠ [])
    (h4 : hasAnyPrice (extract_po_data op llm) = true) :
    validate ft op llm soid wis doc =
      assembleResult doc soid wis (extract_po_data op llm)
        (runPhases (wiEntries wis) (extract_po_data op llm).line_items
          (pyOr (extract_po_data op llm).raw_text "")) := by
  simp only [validate, validateMain, if_neg h1, h2, Bool.false_eq_true, if_false,
    if_neg h3, h4, Bool.not_true]

theorem runPhases_nil (items : List POLineItem) (raw : String) :
    runPhases [] items raw = emptyMatchState := rfl

/- ---------------------------------------------------------------------
   Shared concrete scenario data for witnesses and counterexamples
--------------------------------------------------------------------- -/




/- ---------------------------------------------------------------------
   Claim theorems
--------------------------------------------------------------------- -/

/-- C2: matching is injective.  Across phase 1 and phase 2 combined, the
accepted (work item, PO line) pairs of the Matching Engine are
duplicate-free in both coordinates, and every accepted pair produced
exactly one PriceMismatch or one ok-annotation (mismatch count plus ok
count equals the number of accepted pairs). -/
theorem C2_matching_injective (entries : List (String × WorkItem))
    (items : List POLineItem) (raw_text : String) :
    ((matchedWi (runPhases entries items raw_text)).Nodup ∧
      (matchedPo (runPhases entries items raw_text)).Nodup) ∧
    (runPhases entries items raw_text).mismatches.length +
        (runPhases entries items raw_text).matched_count
      = (runPhases entries items raw_text).pairs.length := by
  obtain ⟨h1, h2, _, _, h5⟩ := runPhases_inv entries items raw_text
  exact ⟨⟨h1, h2⟩, h5⟩

/-- C2 witness: the injectivity statement instantiated at a concrete
matching run with one work item and one PO line. -/
theorem C2_matching_injective_witness :
    ((matchedWi (runPhases (wiEntries [wiSN1 100]) (extrSN1 100).line_items "")).Nodup ∧
      (matchedPo (runPhases (wiEntries [wiSN1 100]) (extrSN1 100).line_items "")).Nodup) ∧
    (runPhases (wiEntries [wiSN1 100]) (extrSN1 100).line_items "").mismatches.length +
        (runPhases (wiEntries [wiSN1 100]) (extrSN1 100).line_items "").matched_count
      = (runPhases (wiEntries [wiSN1 100]) (extrSN1 100).line_items "").pairs.length :=
  C2_matching_injective (wiEntries [wiSN1 100]) (extrSN1 100).line_items ""


/-- C3 counterexample: with one serial-less work item, nothing is matched
(zero lines checked) and missing_items is empty, so the union of missing
and matched work items cannot be all input work items: the counts do not
add up to the single input work item. -/
theorem C3_counterexample :
    c3Run.missing_items = [] ∧ c3Run.line_items_checked = 0 ∧
    c3Run.work_items_total = 1 ∧
    c3Run.missing_items.length + c3Run.line_items_checked ≠ c3Run.work_items_total := by
  have h1 : c3Run.missing_items = [] := by with_unfolding_all rfl
  have h2 : c3Run.line_items_checked = 0 := by with_unfolding_all rfl
  have h3 : c3Run.work_items_total = 1 := by with_unfolding_all rfl
  refine ⟨h1, h2, h3, ?_⟩
  rw [h1, h2, h3]
  decide

/-- C3 (amended): missing_items and the matched work items partition the
work items that carry a serial number (not the full input list): their
counts add up to the number of serial-bearing work items, and by C2 no
work item is counted twice. -/
theorem C3_amended_partition (ft : Option String) (op : Option (List PdfPage))
    (llm : Option POExtraction) (soid : ℤ) (wis : List WorkItem) (doc : String)
    (h1 : wis ≠ []) (h2 : skipCond ft = false)
    (h3 : (extract_po_data op llm).line_items ≠ [])
    (h4 : hasAnyPrice (extract_po_data op llm) = true) :
    (validate ft op llm soid wis doc).missing_items.length +
        (validate ft op llm soid wis doc).line_items_checked
      = (wis.filter (fun wi => truthyO wi.serial_number)).length := by
  rw [validate_main_eq ft op llm soid wis doc h1 h2 h3 h4]
  rw [assembleResult_missing, assembleResult_checked]
  obtain ⟨hn, _, hbnd, hchk, _⟩ := runPhases_inv (wiEntries wis)
    (extract_po_data op llm).line_items (pyOr (extract_po_data op llm).raw_text "")
  have hb : ∀ x ∈ matchedWi (runPhases (wiEntries wis)
      (extract_po_data op llm).line_items (pyOr (extract_po_data op llm).raw_text "")),
      x < (wiEntries wis).length := by
    intro x hx
    rcases List.mem_map.1 hx with ⟨p, hp, hpx⟩
    exact hpx ▸ (hbnd p hp).1
  have hml := missingItems_length hn hb
  have hmw : (matchedWi (runPhases (wiEntries wis)
      (extract_po_data op llm).line_items (pyOr (extract_po_data op llm).raw_text ""))).length
      = (runPhases (wiEntries wis) (extract_po_data op llm).line_items
          (pyOr (extract_po_data op llm).raw_text "")).pairs.length := by
    simp [matchedWi]
  rw [← wiEntries_length]
  omega

/-- C3 amended witness: one serial-bearing work item matched against one
priced line; the partition count equation holds at this instance. -/
theorem C3_amended_partition_witness :
    ([wiSN1 100] ≠ [] ∧ skipCond (some "") = false ∧
      (extract_po_data none (some (extrSN1 100))).line_items ≠ [] ∧
      hasAnyPrice (extract_po_data none (some (extrSN1 100))) = true) ∧
    (validate (some "") none (some (extrSN1 100)) 1 [wiSN1 100] "d").missing_items.length +
        (validate (some "") none (some (extrSN1 100)) 1 [wiSN1 100] "d").line_items_checked
      = ([wiSN1 100].filter (fun wi => truthyO wi.serial_number)).length :=
  ⟨⟨by decide, by with_unfolding_all rfl, by with_unfolding_all decide,
    by with_unfolding_all rfl⟩,
   C3_amended_partition (some "") none (some (extrSN1 100)) 1 [wiSN1 100] "d"
     (by decide) (by with_unfolding_all rfl) (by with_unfolding_all decide)
     (by with_unfolding_all rfl)⟩

/-- C1: status consistency of every ValidationResult produced by validate:
a non-empty mismatch or missing list forces status "fail"; status "pass"
implies both lists are empty; and when validation reached past the pricing
check with both lists empty, the status is "pass". -/
theorem C1_status_invariant (ft : Option String) (op : Option (List PdfPage))
    (llm : Option POExtraction) (soid : ℤ) (wis : List WorkItem) (doc : String) :
    ((validate ft op llm soid wis doc).mismatches ≠ [] ∨
        (validate ft op llm soid wis doc).missing_items ≠ [] →
      (validate ft op llm soid wis doc).status = "fail") ∧
    ((validate ft op llm soid wis doc).status = "pass" →
      (validate ft op llm soid wis doc).mismatches = [] ∧
        (validate ft op llm soid wis doc).missing_items = []) ∧
    (wis ≠ [] → skipCond ft = false → (extract_po_data op llm).line_items ≠ [] →
      hasAnyPrice (extract_po_data op llm) = true →
      (validate ft op llm soid wis doc).mismatches = [] →
      (validate ft op llm soid wis doc).missing_items = [] →
      (validate ft op llm soid wis doc).status = "pass") := by
  by_cases h1 : wis = []
  · have hm : (validate ft op llm soid wis doc).mismatches = [] := by simp [validate, h1]
    have hmi : (validate ft op llm soid wis doc).missing_items = [] := by simp [validate, h1]
    have hs : (validate ft op llm soid wis doc).status = "extraction_failed" := by
      simp [validate, h1]
    refine ⟨?_, ?_, ?_⟩
    · intro h
      rcases h with h | h
      · exact absurd hm h
      · exact absurd hmi h
    · intro h
      rw [hs] at h
      exact absurd h (by decide)
    · intro hne
      exact absurd h1 hne
  · by_cases h2 : skipCond ft
    · have hm : (validate ft op llm soid wis doc).mismatches = [] := by
        simp [validate, h1, h2]
      have hmi : (validate ft op llm soid wis doc).missing_items = [] := by
        simp [validate, h1, h2]
      have hs : (validate ft op llm soid wis doc).status = "skipped" := by
        simp [validate, h1, h2]
      refine ⟨?_, ?_, ?_⟩
      · intro h
        rcases h with h | h
        · exact absurd hm h
        · exact absurd hmi h
      · intro h
        rw [hs] at h
        exact absurd h (by decide)
      · intro _ hsk
        rw [h2] at hsk
        exact absurd hsk (by decide)
    · rw [Bool.not_eq_true] at h2
      by_cases h3 : (extract_po_data op llm).line_items = []
      · have hm : (validate ft op llm soid wis doc).mismatches = [] := by
          simp [validate, h1, h2, h3]
        have hmi : (validate ft op llm soid wis doc).missing_items = [] := by
          simp [validate, h1, h2, h3]
        have hs : (validate ft op llm soid wis doc).status = "extraction_failed" := by
          simp [validate, h1, h2, h3]
        refine ⟨?_, ?_, ?_⟩
        · intro h
          rcases h with h | h
          · exact absurd hm h
          · exact absurd hmi h
        · intro h
          rw [hs] at h
          exact absurd h (by decide)
        · intro _ _ hit
          exact absurd h3 hit
      · by_cases h4 : hasAnyPrice (extract_po_data op llm)
        · have hmain := validate_main_eq ft op llm soid wis doc h1 h2 h3 h4
          refine ⟨?_, ?_, ?_⟩
          · intro h
            rw [hmain, assembleResult_status]
            rw [hmain, assembleResult_mismatches, assembleResult_missing] at h
            exact if_pos h
          · intro h
            rw [hmain, assembleResult_status] at h
            rw [hmain, assembleResult_mismatches, assembleResult_missing]
            by_cases hc : (runPhases (wiEntries wis) (extract_po_data op llm).line_items
                (pyOr (extract_po_data op llm).raw_text "")).mismatches ≠ [] ∨
                missingItems (wiEntries wis) (runPhases (wiEntries wis)
                  (extract_po_data op llm).line_items
                  (pyOr (extract_po_data op llm).raw_text "")) ≠ []
            · rw [if_pos hc] at h
              exact absurd h (by decide)
            · push_neg at hc
              exact hc
          · intro _ _ _ _ hm hmi
            rw [hmain, assembleResult_mismatches] at hm
            rw [hmain, assembleResult_missing] at hmi
            rw [hmain, assembleResult_status]
            rw [if_neg]
            rw [hm, hmi]
            simp
        · rw [Bool.not_eq_true] at h4
          have hm : (validate ft op llm soid wis doc).mismatches = [] := by
            simp [validate, h1, h2, h3, h4]
          have hmi : (validate ft op llm soid wis doc).missing_items = [] := by
            simp [validate, h1, h2, h3, h4]
          have hs : (validate ft op llm soid wis doc).status = "no_pricing" := by
            simp [validate, h1, h2, h3, h4]
          refine ⟨?_, ?_, ?_⟩
          · intro h
            rcases h with h | h
            · exact absurd hm h
            · exact absurd hmi h
          · intro h
            rw [hs] at h
            exact absurd h (by decide)
          · intro _ _ _ hp
            rw [h4] at hp
            exact absurd hp (by decide)

/-- C1 witness: a pass-producing run; both lists are empty and, by the
theorem, the status is "pass". -/
theorem C1_status_invariant_witness :
    ((validate (some "") none (some (extrSN1 100)) 1 [wiSN1 100] "d").mismatches = [] ∧
      (validate (some "") none (some (extrSN1 100)) 1 [wiSN1 100] "d").missing_items = []) ∧
    (validate (some "") none (some (extrSN1 100)) 1 [wiSN1 100] "d").status = "pass" :=
  ⟨⟨by with_unfolding_all rfl, by with_unfolding_all rfl⟩,
   (C1_status_invariant (some "") none (some (extrSN1 100)) 1 [wiSN1 100] "d").2.2
     (by decide) (by with_unfolding_all rfl) (by with_unfolding_all decide)
     (by with_unfolding_all rfl) (by with_unfolding_all rfl) (by with_unfolding_all rfl)⟩

theorem missingItems_nil (st : MatchState) : missingItems [] st = [] := rfl

/-- C10 (implicit): work items with an empty or missing serial number are
excluded from matching entirely.  When no input work item carries a serial
number and extraction yields at least one priced line item, validate
returns "pass" with zero checked lines, zero matches, zero mismatches and
zero missing items, while work_items_total still counts all inputs. -/
theorem C10_serialless_excluded (ft : Option String) (op : Option (List PdfPage))
    (llm : Option POExtraction) (soid : ℤ) (wis : List WorkItem) (doc : String)
    (hsn : ∀ wi ∈ wis, truthyO wi.serial_number = false)
    (h1 : wis ≠ []) (h2 : skipCond ft = false)
    (h3 : (extract_po_data op llm).line_items ≠ [])
    (h4 : hasAnyPrice (extract_po_data op llm) = true) :
    (validate ft op llm soid wis doc).status = "pass" ∧
    (validate ft op llm soid wis doc).mismatches = [] ∧
    (validate ft op llm soid wis doc).missing_items = [] ∧
    (validate ft op llm soid wis doc).line_items_checked = 0 ∧
    (validate ft op llm soid wis doc).line_items_matched = 0 ∧
    (validate ft op llm soid wis doc).work_items_total = wis.length := by
  rw [validate_main_eq ft op llm soid wis doc h1 h2 h3 h4, wiEntries_eq_nil hsn,
    runPhases_nil]
  refine ⟨?_, rfl, ?_, rfl, rfl, rfl⟩
  · rw [assembleResult_status, wiEntries_eq_nil hsn, missingItems_nil]
    simp [emptyMatchState]
  · rw [assembleResult_missing, wiEntries_eq_nil hsn, missingItems_nil]

/-- C10 witness: a single serial-less work item against a priced extraction
yields a pass with no matches and no missing items. -/
theorem C10_serialless_excluded_witness :
    (validate (some "") none (some (extrSN1 50)) 1 [wiNoSerial] "d").status = "pass" ∧
    (validate (some "") none (some (extrSN1 50)) 1 [wiNoSerial] "d").missing_items = [] ∧
    (validate (some "") none (some (extrSN1 50)) 1 [wiNoSerial] "d").line_items_checked = 0 :=
  ⟨(C10_serialless_excluded (some "") none (some (extrSN1 50)) 1 [wiNoSerial] "d"
      (by intro wi hwi; simp at hwi; rw [hwi]; with_unfolding_all rfl)
      (by decide) (by with_unfolding_all rfl) (by with_unfolding_all decide)
      (by with_unfolding_all rfl)).1,
   (C10_serialless_excluded (some "") none (some (extrSN1 50)) 1 [wiNoSerial] "d"
      (by intro wi hwi; simp at hwi; rw [hwi]; with_unfolding_all rfl)
      (by decide) (by with_unfolding_all rfl) (by with_unfolding_all decide)
      (by with_unfolding_all rfl)).2.2.1,
   (C10_serialless_excluded (some "") none (some (extrSN1 50)) 1 [wiNoSerial] "d"
      (by intro wi hwi; simp at hwi; rw [hwi]; with_unfolding_all rfl)
      (by decide) (by with_unfolding_all rfl) (by with_unfolding_all decide)
      (by with_unfolding_all rfl)).2.2.2.1⟩


/-- C5 counterexample: with an empty work_items list, a document whose
first page contains both markers is classified "extraction_failed", not
"skipped" — the empty-work-items check runs before the content check. -/
theorem C5_counterexample :
    (validate (some skipText) none none 2 [] "x.pdf").status = "extraction_failed" ∧
    (validate (some skipText) none none 2 [] "x.pdf").status ≠ "skipped" ∧
    skipCond (some skipText) = true := by
  have h : (validate (some skipText) none none 2 [] "x.pdf").status
      = "extraction_failed" := by with_unfolding_all rfl
  refine ⟨h, ?_, by with_unfolding_all rfl⟩
  rw [h]
  decide

/-- C5 (amended): provided work_items is non-empty, a first page containing
both "order price update" and "request for po" (case-insensitively) makes
validate return "skipped" immediately — the result does not depend on the
extraction inputs at all and carries no annotations, no mismatches and no
missing items. -/
theorem C5_amended_skip (t : String) (op : Option (List PdfPage))
    (llm : Option POExtraction) (soid : ℤ) (wis : List WorkItem) (doc : String)
    (hne : wis ≠ [])
    (h1 : substr "order price update" (strLower t) = true)
    (h2 : substr "request for po" (strLower t) = true) :
    validate (some t) op llm soid wis doc =
      ⟨doc, "", some soid, "skipped", [], [], [], 0, 0, 0, 0, "none", 0,
       "Document is an outbound price-update request, not a customer PO"⟩ := by
  have hsk : skipCond (some t) = true := by
    simp [skipCond, h1, h2]
  simp [validate, hne, hsk]

/-- C5 amended witness: the skip branch at a concrete marker text and a
non-empty work item list. -/
theorem C5_amended_skip_witness :
    (substr "order price update" (strLower skipText) = true ∧
      substr "request for po" (strLower skipText) = true) ∧
    (validate (some skipText) none none 1 [wiSN1 100] "d").status = "skipped" ∧
    (validate (some skipText) none none 1 [wiSN1 100] "d").annotations = [] := by
  have h1 : substr "order price update" (strLower skipText) = true := by
    with_unfolding_all rfl
  have h2 : substr "request for po" (strLower skipText) = true := by
    with_unfolding_all rfl
  have h := C5_amended_skip skipText none none 1 [wiSN1 100] "d" (by decide) h1 h2
  exact ⟨⟨h1, h2⟩, by rw [h], by rw [h]⟩

/-- C6: the contract of the extraction orchestrator.  It is a total function
(never returns null).  (1) When tier 1 succeeds with confidence at or above
the threshold its result is returned unchanged, regardless of tier 2.
(2) When tier 1 is below threshold and tier 2 produced line items, the
tier-2 result is returned with the tier-1 raw-text excerpt copied in (tier-2
results always carry empty raw_text, which the hypothesis records); if
tier 1 returned nothing, the tier-2 result is returned as is.  (3) When
tier 2 failed or yielded nothing, the tier-1 result is returned even at low
confidence.  (4) Only when both tiers produced nothing does it return the
zero-confidence extraction with method "none". -/
theorem C6_orchestrator_contract (op : Option (List PdfPage)) (llm : Option POExtraction) :
    (∀ t, extract_with_pdfplumber op = some t → CONFIDENCE_THRESHOLD ≤ t.confidence →
      extract_po_data op llm = t) ∧
    (∀ t l, extract_with_pdfplumber op = some t → t.confidence < CONFIDENCE_THRESHOLD →
      llm = some l → l.line_items ≠ [] → l.raw_text = "" →
      extract_po_data op llm = { l with raw_text := t.raw_text }) ∧
    (∀ l, extract_with_pdfplumber op = none → llm = some l → l.line_items ≠ [] →
      extract_po_data op llm = l) ∧
    (∀ t, extract_with_pdfplumber op = some t → t.confidence < CONFIDENCE_THRESHOLD →
      (llm = none ∨ ∃ l, llm = some l ∧ l.line_items = []) →
      extract_po_data op llm = t) ∧
    (extract_with_pdfplumber op = none →
      (llm = none ∨ ∃ l, llm = some l ∧ l.line_items = []) →
      extract_po_data op llm = ⟨"", [], 0, "none", ""⟩) := by
  refine ⟨?_, ?_, ?_, ?_, ?_⟩
  · intro t ht hconf
    simp [extract_po_data, ht, hconf]
  · intro t l ht hconf hl hitems hraw
    simp only [extract_po_data, ht, hl]
    rw [if_neg (not_le.2 hconf), if_pos hitems]
    by_cases hrt : t.raw_text = ""
    · rw [if_neg (not_not_intro hrt)]
      cases l
      dsimp only at hraw ⊢
      simp [hraw, hrt]
    · rw [if_pos hrt]
  · intro l hnone hl hitems
    simp [extract_po_data, hnone, hl, hitems]
  · intro t ht hconf hfail
    simp only [extract_po_data, ht]
    rw [if_neg (not_le.2 hconf)]
    rcases hfail with h | ⟨l, hl, hli⟩
    · simp [h]
    · simp [hl, hli]
  · intro hnone hfail
    rcases hfail with h | ⟨l, hl, hli⟩
    · simp [extract_po_data, hnone, h]
    · simp [extract_po_data, hnone, hl, hli]



/-- C6 witness: at the concrete high-confidence page, tier 1 wins and is
returned unchanged (clause 1 of the contract, with tier 2 absent). -/
theorem C6_orchestrator_contract_witness :
    extract_with_pdfplumber (some [highConfPage]) = some highConfExtr ∧
    CONFIDENCE_THRESHOLD ≤ highConfExtr.confidence ∧
    extract_po_data (some [highConfPage]) none = highConfExtr := by
  have ht : extract_with_pdfplumber (some [highConfPage]) = some highConfExtr := by
    with_unfolding_all rfl
  have hc : CONFIDENCE_THRESHOLD ≤ highConfExtr.confidence := by
    norm_num [CONFIDENCE_THRESHOLD, highConfExtr]
  exact ⟨ht, hc, (C6_orchestrator_contract (some [highConfPage]) none).1 _ ht hc⟩


/-- C7 counterexample: when the annotation oracle raises, the pipeline
entry point does not propagate the exception — it returns the degraded
value (no annotated bytes, empty filename, unannotated result) as a normal
return. -/
theorem C7_counterexample :
    validate_and_annotate failingAnnotate (some "") none none 1 [] "doc.pdf"
      = Except.ok (none, "", validate (some "") none none 1 [] "doc.pdf") ∧
    (validate_and_annotate failingAnnotate (some "") none none 1 [] "doc.pdf").isOk
      = true := by
  constructor
  · with_unfolding_all rfl
  · with_unfolding_all rfl

/-- C7 (amended): an annotation-rendering failure is caught inside
validate_and_annotate, which returns (None, "", result) to its caller
instead of letting the exception propagate. -/
theorem C7_amended_annotation_caught
    (f : ValidationResult → Except String (String × String))
    (ft : Option String) (op : Option (List PdfPage)) (llm : Option POExtraction)
    (soid : ℤ) (wis : List WorkItem) (doc : String) (err : String)
    (h : f (validate ft op llm soid wis doc) = Except.error err) :
    validate_and_annotate f ft op llm soid wis doc =
      Except.ok (none, "", validate ft op llm soid wis doc) := by
  unfold validate_and_annotate
  by_cases hs : (validate ft op llm soid wis doc).status = "skipped"
  · rw [if_pos hs]
  · rw [if_neg hs, h]

/-- C7 amended witness: the caught-and-degraded return at a concrete
failing annotation oracle. -/
theorem C7_amended_annotation_caught_witness :
    failingAnnotate (validate (some "") none none 1 [] "d")
      = Except.error "render failure" ∧
    validate_and_annotate failingAnnotate (some "") none none 1 [] "d"
      = Except.ok (none, "", validate (some "") none none 1 [] "d") :=
  ⟨rfl, C7_amended_annotation_caught failingAnnotate (some "") none none
    1 [] "d" "render failure" rfl⟩



theorem c4_entries (expected : ℚ) :
    wiEntries [wiSN1 expected] = [("SN1", wiSN1 expected)] := by
  have hns : normalise_sn "SN1" = "SN1" := by with_unfolding_all rfl
  simp [wiEntries, wiSN1, truthyO, hns]

theorem c4_cands (expected pop : ℚ) :
    phase1Candidates [("SN1", wiSN1 expected)] (extrSN1 pop).line_items
      = [⟨|pop - expected|, 0, 0, expected, pop⟩] := by
  have hms : match_sn "SN1" "SN1" = true := by with_unfolding_all rfl
  simp [phase1Candidates, extrSN1, wiSN1, pyEnumerate, pyEnumerateFrom, wiPrice,
    poPrice, truthyO, hms]

theorem c4_phase1 (expected pop : ℚ) :
    phase1 [("SN1", wiSN1 expected)] (extrSN1 pop).line_items emptyMatchState =
      acceptMatch emptyMatchState 0 0
        ⟨some "SN1", "desc", some pop, none, none, some 0, none⟩
        expected pop "SN1" (some "SN1") (some 7) := by
  unfold phase1
  rw [c4_cands]
  have hsort : pySort candLT [(⟨|pop - expected|, 0, 0, expected, pop⟩ : Cand)]
      = [⟨|pop - expected|, 0, 0, expected, pop⟩] := rfl
  rw [hsort]
  simp only [List.foldl_cons, List.foldl_nil]
  simp [phase1Step, matchedWi, matchedPo, emptyMatchState, pyOr, extrSN1, wiSN1,
    List.get?]

theorem c4_run_ok (expected pop : ℚ) (h : |pop - expected| ≤ PRICE_TOLERANCE) :
    runPhases [("SN1", wiSN1 expected)] (extrSN1 pop).line_items
      (pyOr (extrSN1 pop).raw_text "") = stOkC4 := by
  unfold runPhases
  rw [c4_phase1]
  have hacc : acceptMatch emptyMatchState 0 0
      ⟨some "SN1", "desc", some pop, none, none, some 0, none⟩
      expected pop "SN1" (some "SN1") (some 7) = stOkC4 := by
    unfold acceptMatch
    rw [if_pos h]
    rfl
  rw [hacc]
  simp [phase2, pyEnumerate, pyEnumerateFrom, phase2Step, matchedWi, stOkC4]

theorem c4_run_mm (expected pop : ℚ) (h : ¬(|pop - expected| ≤ PRICE_TOLERANCE)) :
    runPhases [("SN1", wiSN1 expected)] (extrSN1 pop).line_items
      (pyOr (extrSN1 pop).raw_text "") = stMmC4 expected pop := by
  unfold runPhases
  rw [c4_phase1]
  have hacc : acceptMatch emptyMatchState 0 0
      ⟨some "SN1", "desc", some pop, none, none, some 0, none⟩
      expected pop "SN1" (some "SN1") (some 7) = stMmC4 expected pop := by
    unfold acceptMatch
    rw [if_neg h]
    rfl
  rw [hacc]
  simp [phase2, pyEnumerate, pyEnumerateFrom, phase2Step, matchedWi, stMmC4]

theorem c4_extract (pop : ℚ) :
    extract_po_data none (some (extrSN1 pop)) = extrSN1 pop := by
  simp [extract_po_data, extract_with_pdfplumber, extrSN1]

theorem c4_validate (expected pop : ℚ) :
    validate (some "") none (some (extrSN1 pop)) 1 [wiSN1 expected] "doc.pdf" =
      assembleResult "doc.pdf" 1 [wiSN1 expected] (extrSN1 pop)
        (runPhases [("SN1", wiSN1 expected)] (extrSN1 pop).line_items
          (pyOr (extrSN1 pop).raw_text "")) := by
  have h3 : (extract_po_data none (some (extrSN1 pop))).line_items ≠ [] := by
    rw [c4_extract]
    simp [extrSN1]
  have h4 : hasAnyPrice (extract_po_data none (some (extrSN1 pop))) = true := by
    rw [c4_extract]
    simp [hasAnyPrice, extrSN1]
  have h := validate_main_eq (some "") none (some (extrSN1 pop)) 1 [wiSN1 expected]
    "doc.pdf" (by simp) (by with_unfolding_all rfl) h3 h4
  rw [h, c4_extract, c4_entries]

theorem c4_missing_ok (expected : ℚ) :
    missingItems [("SN1", wiSN1 expected)] stOkC4 = [] := by
  simp [missingItems, pyEnumerate, pyEnumerateFrom, matchedWi, stOkC4]

theorem c4_missing_mm (expected e2 pop : ℚ) :
    missingItems [("SN1", wiSN1 expected)] (stMmC4 e2 pop) = [] := by
  simp [missingItems, pyEnumerate, pyEnumerateFrom, matchedWi, stMmC4]

/-- C4 (amended): for the accepted match of a one-item scenario (any
rational prices), validate computes diff = po price minus expected price;
within the ±0.01 tolerance (inclusive) it records an ok match (pass, one
matched line, no mismatch); beyond it, a mismatch whose difference field
is the signed diff rounded to two decimal places. -/
theorem C4_tolerance_amended (expected pop : ℚ) :
    (validate (some "") none (some (extrSN1 pop)) 1 [wiSN1 expected] "doc.pdf").line_items_checked = 1 ∧
    (|pop - expected| ≤ PRICE_TOLERANCE →
      (validate (some "") none (some (extrSN1 pop)) 1 [wiSN1 expected] "doc.pdf").status = "pass" ∧
      (validate (some "") none (some (extrSN1 pop)) 1 [wiSN1 expected] "doc.pdf").line_items_matched = 1 ∧
      (validate (some "") none (some (extrSN1 pop)) 1 [wiSN1 expected] "doc.pdf").mismatches = []) ∧
    (PRICE_TOLERANCE < |pop - expected| →
      (validate (some "") none (some (extrSN1 pop)) 1 [wiSN1 expected] "doc.pdf").status = "fail" ∧
      (validate (some "") none (some (extrSN1 pop)) 1 [wiSN1 expected] "doc.pdf").line_items_matched = 0 ∧
      (validate (some "") none (some (extrSN1 pop)) 1 [wiSN1 expected] "doc.pdf").mismatches =
        [⟨"SN1", pop, expected, pyRound (pop - expected) 2, "desc", some 7⟩]) := by
  rw [c4_validate]
  refine ⟨?_, ?_, ?_⟩
  · by_cases h : |pop - expected| ≤ PRICE_TOLERANCE
    · rw [c4_run_ok expected pop h, assembleResult_checked]
      rfl
    · rw [c4_run_mm expected pop h, assembleResult_checked]
      rfl
  · intro h
    rw [c4_run_ok expected pop h]
    refine ⟨?_, rfl, rfl⟩
    rw [assembleResult_status, c4_entries, c4_missing_ok]
    simp [stOkC4]
  · intro h
    rw [c4_run_mm expected pop (not_le.2 h)]
    refine ⟨?_, rfl, rfl⟩
    rw [assembleResult_status, c4_entries, c4_missing_mm]
    rw [if_pos (Or.inl (by simp [stMmC4]))]

/-- C4 witness: the exact boundary |diff| = 0.01 is accepted as ok. -/
theorem C4_tolerance_amended_witness :
    (|(10001/100 : ℚ) - 100| ≤ PRICE_TOLERANCE) ∧
    (validate (some "") none (some (extrSN1 (10001/100))) 1 [wiSN1 100] "doc.pdf").status = "pass" ∧
    (validate (some "") none (some (extrSN1 (10001/100))) 1 [wiSN1 100] "doc.pdf").line_items_matched = 1 :=
  ⟨by norm_num [PRICE_TOLERANCE, abs_le],
   ((C4_tolerance_amended 100 (10001/100)).2.1 (by norm_num [PRICE_TOLERANCE, abs_le])).1,
   ((C4_tolerance_amended 100 (10001/100)).2.1 (by norm_num [PRICE_TOLERANCE, abs_le])).2.1⟩

/-- C4 counterexample: at po price 100.0101 against expected 100, the
recorded difference field is 0.01 (the rounded diff), not the signed diff
0.0101 the claim states. -/
theorem C4_counterexample :
    (validate (some "") none (some (extrSN1 (1000101/10000))) 1 [wiSN1 100]
        "doc.pdf").mismatches.map (fun m => m.difference) = [1/100] ∧
    ((1/100 : ℚ) ≠ (1000101/10000 : ℚ) - 100) := by
  constructor
  · with_unfolding_all rfl
  · norm_num

theorem extract_serial_not_ip {text sn : String}
    (h : extract_serial_from_text text = some sn) : isIpAddress sn = false := by
  unfold extract_serial_from_text at h
  rcases hs : reSearch SN_IN_TEXT text with _ | o
  · rw [hs] at h
    cases h
  · rw [hs] at h
    dsimp only at h
    split at h
    · cases h
    · next hip =>
      simp only [Option.some.injEq] at h
      rw [← h]
      exact Bool.eq_false_iff.2 hip

theorem enrichGo_serial :
    ∀ (items : List POLineItem) (sns : List String),
    (∀ s ∈ sns, isIpAddress s = false) →
    ∀ i it, (enrichGo items sns).get? i = some it →
      ∀ sn, it.serial_number = some sn →
        (∃ it0, items.get? i = some it0 ∧ it0.serial_number = some sn) ∨
          isIpAddress sn = false := by
  intro items
  induction items with
  | nil =>
    intro sns _ i it h
    simp [enrichGo] at h
  | cons a rest ih =>
    intro sns hsns i it h sn hsn
    by_cases ht : truthyO a.serial_number
    · simp only [enrichGo] at h
      rw [if_pos ht] at h
      match i with
      | 0 =>
        simp only [List.get?] at h
        simp only [Option.some.injEq] at h
        exact Or.inl ⟨a, rfl, h ▸ hsn⟩
      | i' + 1 =>
        simp only [List.get?] at h
        exact ih sns hsns i' it h sn hsn
    · simp only [enrichGo] at h
      rw [if_neg ht] at h
      rcases sns with _ | ⟨s0, srest⟩
      · dsimp only at h
        match i with
        | 0 =>
          simp only [List.get?, Option.some.injEq] at h
          exact Or.inl ⟨a, rfl, h ▸ hsn⟩
        | i' + 1 =>
          simp only [List.get?] at h
          exact ih [] (by intro s hs; cases hs) i' it h sn hsn
      · dsimp only at h
        match i with
        | 0 =>
          simp only [List.get?, Option.some.injEq] at h
          by_cases hs0 : s0 ≠ ""
          · rw [if_pos hs0] at h
            rw [← h] at hsn
            simp only [Option.some.injEq] at hsn
            refine Or.inr ?_
            rw [← hsn]
            exact hsns s0 (by simp)
          · rw [if_neg hs0] at h
            exact Or.inl ⟨a, rfl, h ▸ hsn⟩
        | i' + 1 =>
          simp only [List.get?] at h
          exact ih srest (fun s hs => hsns s (List.mem_cons_of_mem _ hs))
            i' it h sn hsn

theorem enrich_items_serial {items : List POLineItem} {raw : String} {i : ℕ}
    {it : POLineItem} {sn : String}
    (h : (enrich_items_with_text_sns items raw).get? i = some it)
    (hsn : it.serial_number = some sn) :
    (∃ it0, items.get? i = some it0 ∧ it0.serial_number = some sn) ∨
      isIpAddress sn = false := by
  unfold enrich_items_with_text_sns at h
  by_cases ha : reFindAll SN_IN_TEXT raw = []
  · rw [if_pos ha] at h
    exact Or.inl ⟨it, h, hsn⟩
  · rw [if_neg ha] at h
    refine enrichGo_serial items _ ?_ i it h sn hsn
    intro s hs
    rcases List.mem_filter.1 hs with ⟨_, hpred⟩
    rw [Bool.and_eq_true] at hpred
    simpa using hpred.1

theorem parse_text_lines_serial {pts : List PageText} {it : POLineItem}
    (h : it ∈ parse_text_lines pts) :
    ∀ sn, it.serial_number = some sn → isIpAddress sn = false := by
  intro sn hsn
  unfold parse_text_lines at h
  rcases List.mem_flatMap.1 h with ⟨pt, _, hmem⟩
  rcases List.mem_filterMap.1 hmem with ⟨i, _, heq⟩
  dsimp only at heq
  split at heq
  · cases heq
  · split at heq
    · cases heq
    · split at heq
      · cases heq
      · simp only [Option.some.injEq] at heq
        rw [← heq] at hsn
        simp only at hsn
        exact extract_serial_not_ip hsn

theorem ite_none_eq_some {α : Type} {c : Prop} [Decidable c] {y : Option α} {v : α}
    (h : (if c then none else y) = some v) : y = some v := by
  by_cases hc : c
  · rw [if_pos hc] at h
    cases h
  · rwa [if_neg hc] at h

theorem parseTableRow_no_sn_col {page_index hdr_idx : ℕ}
    {price_idx qty_idx desc_idx : Option ℕ} {raw_headers : List String}
    {row_bboxes : List (ℕ × Bbox)} {p : ℕ × List (Option String)} {it : POLineItem}
    (h : parseTableRow page_index hdr_idx none price_idx qty_idx desc_idx
      raw_headers row_bboxes p = some it) :
    ∀ sn, it.serial_number = some sn → isIpAddress sn = false := by
  intro sn hsn
  unfold parseTableRow at h
  dsimp only at h
  have h2 := ite_none_eq_some (ite_none_eq_some (ite_none_eq_some h))
  simp only [Option.some.injEq] at h2
  rw [← h2] at hsn
  dsimp only at hsn
  rw [show cellAt p.2 none = none from rfl] at hsn
  simp only [truthyO, Bool.not_false, Bool.true_and] at hsn
  split at hsn
  · exact extract_serial_not_ip hsn
  · cases hsn

theorem mem_ite_pair {c : Prop} [Decidable c] {y : List POLineItem × ℚ}
    {it : POLineItem}
    (h : it ∈ (if c then (([], 0) : List POLineItem × ℚ) else y).1) : it ∈ y.1 := by
  by_cases hc : c
  · rw [if_pos hc] at h
    simp at h
  · rwa [if_neg hc] at h

theorem parse_table_no_sn_serial {pt : PageTable}
    (hsn : find_column_index (tableRawHeaders pt.data) SN_HEADER_PATTERNS = none) :
    ∀ it ∈ (parse_table pt).1, ∀ sn, it.serial_number = some sn →
      isIpAddress sn = false := by
  intro it hit sn hsnn
  unfold parse_table at hit
  dsimp only at hit
  have h1 := mem_ite_pair (mem_ite_pair (mem_ite_pair (mem_ite_pair hit)))
  dsimp only at h1
  rw [hsn] at h1
  rcases List.mem_filterMap.1 h1 with ⟨p, _, heq⟩
  exact parseTableRow_no_sn_col heq sn hsnn

/-- C8 (amended): the IP-address filter holds on every text-derived serial
path — a serial extracted from description text, a serial attached by the
raw-text enrichment pass (any serial in the enriched list is either
inherited verbatim from the input item or non-IP), a serial found by the
text-line fallback parser, and a table row parsed without a dedicated
serial-number column.  (The dedicated serial-number column itself is taken
verbatim and not filtered; see the counterexample.) -/
theorem C8_ip_rejected_text_paths :
    (∀ text sn, extract_serial_from_text text = some sn → isIpAddress sn = false) ∧
    (∀ (items : List POLineItem) (raw : String) (i : ℕ) (it : POLineItem) (sn : String),
      (enrich_items_with_text_sns items raw).get? i = some it →
      it.serial_number = some sn →
      (∃ it0, items.get? i = some it0 ∧ it0.serial_number = some sn) ∨
        isIpAddress sn = false) ∧
    (∀ (pts : List PageText) (it : POLineItem), it ∈ parse_text_lines pts →
      ∀ sn, it.serial_number = some sn → isIpAddress sn = false) ∧
    (∀ (pt : PageTable),
      find_column_index (tableRawHeaders pt.data) SN_HEADER_PATTERNS = none →
      ∀ it ∈ (parse_table pt).1, ∀ sn, it.serial_number = some sn →
        isIpAddress sn = false) :=
  ⟨fun _ _ h => extract_serial_not_ip h,
   fun _ _ _ _ _ h hsn => enrich_items_serial h hsn,
   fun _ _ h sn hsn => parse_text_lines_serial h sn hsn,
   fun _ hsn it hit sn h => parse_table_no_sn_serial hsn it hit sn h⟩


/-- C8 counterexample: tier-1 extraction accepts the IP-shaped token
"10.0.0.1" as a serial number when it sits in a dedicated serial-number
table column — the IP rejection is not applied on that path. -/
theorem C8_counterexample :
    (extract_with_pdfplumber (some [ipPage])).map
        (fun e => e.line_items.map (fun it => it.serial_number))
      = some [some "10.0.0.1"] ∧
    isIpAddress "10.0.0.1" = true := by
  constructor
  · with_unfolding_all rfl
  · with_unfolding_all rfl

/-- C8 witness: a serial found in description text is returned and is not
IP-shaped. -/
theorem C8_ip_rejected_text_paths_witness :
    extract_serial_from_text "SN: ABC123" = some "ABC123" ∧
    isIpAddress "ABC123" = false :=
  ⟨by with_unfolding_all rfl,
   C8_ip_rejected_text_paths.1 "SN: ABC123" "ABC123" (by with_unfolding_all rfl)⟩
